import Mathlib

/-!
# SmartSpin2k control core: a shallow embedding

Source files embedded here:

* `src/src/Main.cpp`: `SS2K::FTMSModeShiftModifier`, `SS2K::moveStepper`,
  `SS2K::checkDriverTemperature`, `SS2K::txSerial`, `SS2K::pelotonConnected`,
  `SS2K::rxSerial`;
* `src/src/SensorCollector.cpp`: `collectAndSet`.

Conventions.

* C `int` values are carried on `Int`.  Signed overflow is undefined behaviour in
  C++, so the model describes the runs in which no intermediate value leaves the
  machine range.  Conversions to `uint8_t` are written with an explicit `% 256`.
* `float`/`double` values are carried on `ℚ`; the conversion of a floating value
  to `int` is `truncToInt` (rounding toward zero).  The rounding of floating
  operations is not modelled: the theorems below use such a value only where it is
  exact (an integer, or zero) or only through its sign.
* Calls into collaborators (stepper, driver, serial port, BLE client) are
  recorded, in program order, as a list of `Event`s returned next to the state.
* Values the code reads from hardware or from a concurrently written location
  are inputs of the embedded function.
* Macros and types that are declared in headers outside the listed sources
  (`settings.h`, `Main.h`, `BLE_Definitions.h`, `boards.h`) are fields of
  `Consts` or of the state records.
-/

namespace SS2K

/-- Conversion of a floating value to `int`: rounding toward zero. -/
def truncToInt (q : ℚ) : Int := if 0 ≤ q then ⌊q⌋ else ⌈q⌉

/-- Compile-time constants of the firmware (macros and board description). -/
structure Consts where
  ERG_PER_SHIFT : Int
  THROTTLE_TEMP : Int
  TX_CHECK_INTERVAL : Int
  DEFAULT_RESISTANCE_RANGE : Int
  MIN_PELOTON_RESISTANCE : Int
  MAX_PELOTON_RESISTANCE : Int
  PELOTON_TX : Bool
  PELOTON_REQUEST : Nat
  PELOTON_FOOTER : Nat
  PELOTON_HEADER : Nat
  PELOTON_REQ_POS : Nat
  PELOTON_CHECKSUM_POS : Nat
  PELOTON_POW_ID : Nat
  PELOTON_CAD_ID : Nat
  PELOTON_RES_ID : Nat
  PELOTON_RQ_SIZE : Nat
  PELOTON_DATA_UUID : Nat
  PELOTON_ADDRESS : Nat
  BLE_shifterPosition : Nat
  /-- Whether `INTERNAL_ERG_4EXT_FTMS` is defined. -/
  INTERNAL_ERG_4EXT_FTMS : Bool
  /-- The field `currentBoard.pwrScaler`. -/
  pwrScaler : Int
  /-- The field `currentBoard.dirPin`. -/
  dirPin : Nat
  /-- Width in bits of the unsigned type in which `millis() - lastDebounceTime` is
  computed (the member is declared in `Main.h`). -/
  timeBits : Nat
  deriving DecidableEq

/-- The class `Measurement`: one controlled metric. -/
structure Measurement where
  value : Int
  target : Int
  simulate : Bool
  deriving DecidableEq

/-- The control point procedures the code switches on; every other op code is
`otherProcedure`. -/
inductive FitnessMachineControlPointProcedure
  | SetTargetResistanceLevel
  | SetTargetPower
  | SetIndoorBikeSimulationParameters
  | otherProcedure
  deriving DecidableEq

/-- Op code byte of a control point procedure (values of the FTMS specification). -/
def FitnessMachineControlPointProcedure.opCode : FitnessMachineControlPointProcedure → Int
  | .SetTargetResistanceLevel => 0x04
  | .SetTargetPower => 0x05
  | .SetIndoorBikeSimulationParameters => 0x11
  | .otherProcedure => 0x00

/-- The object `rtConfig` (class `RuntimeParameters`). -/
structure RuntimeParameters where
  hr : Measurement
  cad : Measurement
  watts : Measurement
  resistance : Measurement
  targetIncline : ℚ
  currentIncline : ℚ
  simulatedSpeed : ℚ
  shifterPosition : Int
  FTMSMode : FitnessMachineControlPointProcedure
  minStep : Int
  maxStep : Int
  minResistance : Int
  maxResistance : Int
  deriving DecidableEq

/-- The object `userConfig` (class `userParameters`), the fields read here. -/
structure userParameters where
  shiftStep : Int
  inclineMultiplier : ℚ
  stepperSpeed : Int
  minWatts : Int
  maxWatts : Int
  powerCorrectionFactor : ℚ
  shifterDir : Bool
  connectedPowerMeter : String
  deriving DecidableEq

/-- The object `ss2k` (class `SS2K`), together with the function-local statics
`alternate` of `txSerial` and `overTemp` of `checkDriverTemperature`. -/
structure SS2KFields where
  targetPosition : Int
  currentPosition : Int
  stepperIsRunning : Bool
  externalControl : Bool
  syncMode : Bool
  pelotonIsConnected : Bool
  lastShifterPosition : Int
  txCheck : Int
  lastDebounceTime : Nat
  debounceDelay : Nat
  alternate : Int
  overTemp : Bool
  deriving DecidableEq

/-- The connected flags of `spinBLEClient`. -/
structure SpinBLEClient where
  connectedPM : Bool
  connectedHRM : Bool
  connectedCD : Bool
  connectedSpeed : Bool
  deriving DecidableEq

/-- The global state the embedded functions read and write. -/
structure State where
  rtConfig : RuntimeParameters
  userConfig : userParameters
  ss2k : SS2KFields
  spinBLEClient : SpinBLEClient
  /-- Whether the global pointer `stepper` is non-null. -/
  stepper : Bool
  /-- Number of `analogRead(POT_PIN)` calls made so far. -/
  potReads : Nat
  deriving DecidableEq

/-- Calls into collaborators, in program order. -/
inductive Event
  | stopMove
  | setCurrentPosition (pos : Int)
  | moveTo (pos : Int)
  | setAutoEnable (autoEnable : Bool)
  | enableOutputs
  | setDirectionPin (pin : Nat) (dir : Bool)
  | setSpeedInHz (hz : Int)
  | irun (cs : Int)
  | FTMSControlPointWrite (data : List Int)
  | auxSerialWrite (buf : List Nat)
  | bleNotify (field : Nat)
  | vTaskDelay (ms : Nat)
  deriving DecidableEq

/-- The positions of the `moveTo` calls of an event list, in order. -/
def moveTargets : List Event → List Int
  | [] => []
  | Event.moveTo p :: es => p :: moveTargets es
  | _ :: es => moveTargets es

/-- The arguments of the `irun` calls of an event list, in order. -/
def irunValues : List Event → List Int
  | [] => []
  | Event.irun cs :: es => cs :: irunValues es
  | _ :: es => irunValues es

/-- The setter `rtConfig->setShifterPosition`. -/
def setShifterPosition (s : State) (p : Int) : State :=
  { s with rtConfig := { s.rtConfig with shifterPosition := p } }

/-- The setter `rtConfig->watts.setTarget`. -/
def setWattsTarget (s : State) (t : Int) : State :=
  { s with rtConfig := { s.rtConfig with watts := { s.rtConfig.watts with target := t } } }

/-- The setter `rtConfig->resistance.setTarget`. -/
def setResistanceTarget (s : State) (t : Int) : State :=
  { s with rtConfig := { s.rtConfig with resistance := { s.rtConfig.resistance with target := t } } }

/-- The body of `case SetTargetPower` in `SS2K::FTMSModeShiftModifier`. -/
def ergShift (c : Consts) (shiftDelta : Int) (s : State) : State × List Event :=
  let s1 := setShifterPosition s s.ss2k.lastShifterPosition
  if s1.rtConfig.watts.target + shiftDelta * c.ERG_PER_SHIFT < s1.userConfig.minWatts ∨
      s1.rtConfig.watts.target + shiftDelta * c.ERG_PER_SHIFT > s1.userConfig.maxWatts then
    (s1, [])
  else
    let s2 := setWattsTarget s1 (s1.rtConfig.watts.target + c.ERG_PER_SHIFT * shiftDelta)
    if c.INTERNAL_ERG_4EXT_FTMS then (s2, [])
    else
      let adjustedTarget : Int :=
        truncToInt ((s2.rtConfig.watts.target : ℚ) / s2.userConfig.powerCorrectionFactor)
      (s2, [Event.FTMSControlPointWrite
        [FitnessMachineControlPointProcedure.SetTargetPower.opCode,
          adjustedTarget % 256, (adjustedTarget / 256) % 256]])

/-- The body of `case SetTargetResistanceLevel` in `SS2K::FTMSModeShiftModifier`. -/
def resistanceShift (shiftDelta : Int) (s : State) : State × List Event :=
  let s1 := setShifterPosition s s.ss2k.lastShifterPosition
  if s1.ss2k.pelotonIsConnected then
    if s1.rtConfig.resistance.target + shiftDelta < s1.rtConfig.minResistance then
      (setResistanceTarget s1 s1.rtConfig.minResistance, [])
    else if s1.rtConfig.resistance.target + shiftDelta > s1.rtConfig.maxResistance then
      (setResistanceTarget s1 s1.rtConfig.maxResistance, [])
    else
      (setResistanceTarget s1 (s1.rtConfig.resistance.target + shiftDelta), [])
  else (s1, [])

/-- The body of `default:` (simulation mode) in `SS2K::FTMSModeShiftModifier`. -/
def simShift (shiftDelta : Int) (s : State) : State × List Event :=
  let s1 :=
    if s.ss2k.targetPosition + shiftDelta * s.userConfig.shiftStep < s.rtConfig.minStep ∨
        s.ss2k.targetPosition + shiftDelta * s.userConfig.shiftStep > s.rtConfig.maxStep then
      setShifterPosition s s.ss2k.lastShifterPosition
    else if s.rtConfig.resistance.value ≤ s.rtConfig.minResistance ∧ shiftDelta > 0 then s
    else if s.rtConfig.resistance.value ≥ s.rtConfig.maxResistance ∧ shiftDelta < 0 then s
    else if s.rtConfig.resistance.value > s.rtConfig.minResistance ∧
        s.rtConfig.resistance.value < s.rtConfig.maxResistance then s
    else setShifterPosition s s.ss2k.lastShifterPosition
  (s1, [Event.FTMSControlPointWrite
    [FitnessMachineControlPointProcedure.SetIndoorBikeSimulationParameters.opCode,
      0x00, 0x00, 0x00, 0x00, 0x28, 0x33]])

/-- The function `SS2K::FTMSModeShiftModifier` (Main.cpp, lines 309-378). -/
def FTMSModeShiftModifier (c : Consts) (s : State) : State × List Event :=
  let shiftDelta := s.rtConfig.shifterPosition - s.ss2k.lastShifterPosition
  if shiftDelta ≠ 0 then
    let r :=
      match s.rtConfig.FTMSMode with
      | .SetTargetPower => ergShift c shiftDelta s
      | .SetTargetResistanceLevel => resistanceShift shiftDelta s
      | _ => simShift shiftDelta s
    ({ r.1 with ss2k := { r.1.ss2k with lastShifterPosition := r.1.rtConfig.shifterPosition } },
      r.2 ++ [Event.bleNotify c.BLE_shifterPosition])
  else (s, [])

/-- Values `SS2K::moveStepper` reads from the stepper, the BLE server and the
user configuration during one tick, one field per read, in program order. -/
structure StepperReads where
  /-- The read `userConfig->getStepperDir()` on entry (line 390). -/
  dirAtEntry : Bool
  /-- The read `stepper->isRunning()` (line 392). -/
  isRunning : Bool
  /-- The read `stepper->getCurrentPosition()` (line 393). -/
  posAtEntry : Int
  /-- The read `stepper->getCurrentPosition()` of the 20 unit nudge (lines 417, 425). -/
  posNudge : Int
  /-- The read `stepper->getCurrentPosition()` of the shift-out test (lines 420, 428). -/
  posShiftOut : Int
  /-- The read `stepper->getCurrentPosition()` for `setCurrentIncline` (line 442). -/
  posIncline : Int
  /-- The value `connectedClientCount()` (line 444). -/
  clientCount : Int
  /-- The read `userConfig->getStepperDir()` of the comparison (line 451). -/
  dirAtExit : Bool
  /-- The read `userConfig->getStepperDir()` of the assignment (line 452). -/
  dirApplied : Bool
  /-- How many times `stepper->isRunning()` answers true in the wait loop (line 453). -/
  runningPolls : Nat
  deriving DecidableEq

/-- The target computation of `SS2K::moveStepper` (lines 394-403). -/
def computeTargetPosition (s : State) : Int :=
  if !s.ss2k.externalControl then
    if s.rtConfig.FTMSMode = .SetTargetPower ∨ s.rtConfig.FTMSMode = .SetTargetResistanceLevel then
      truncToInt s.rtConfig.targetIncline
    else
      truncToInt (((s.rtConfig.shifterPosition * s.userConfig.shiftStep : Int) : ℚ) +
        s.rtConfig.targetIncline * s.userConfig.inclineMultiplier)
  else s.ss2k.targetPosition

/-- The stepper calls of the bounds section of `SS2K::moveStepper` (lines 412-441). -/
def boundedMove (r : StepperReads) (s : State) : List Event :=
  if s.ss2k.pelotonIsConnected then
    if s.rtConfig.resistance.value > s.rtConfig.minResistance ∧
        s.rtConfig.resistance.value < s.rtConfig.maxResistance then
      [Event.moveTo s.ss2k.targetPosition]
    else if s.rtConfig.resistance.value ≤ s.rtConfig.minResistance then
      (if s.rtConfig.resistance.value ≠ s.rtConfig.minResistance then
          [Event.moveTo (r.posNudge + 20)] else []) ++
        (if s.ss2k.targetPosition > r.posShiftOut then
          [Event.moveTo s.ss2k.targetPosition] else [])
    else
      (if s.rtConfig.resistance.value ≠ s.rtConfig.maxResistance then
          [Event.moveTo (r.posNudge - 20)] else []) ++
        (if s.ss2k.targetPosition < r.posShiftOut then
          [Event.moveTo s.ss2k.targetPosition] else [])
  else
    if s.ss2k.targetPosition ≥ s.rtConfig.minStep ∧ s.ss2k.targetPosition ≤ s.rtConfig.maxStep then
      [Event.moveTo s.ss2k.targetPosition]
    else if s.ss2k.targetPosition ≤ s.rtConfig.minStep then
      [Event.moveTo s.rtConfig.minStep]
    else
      [Event.moveTo s.rtConfig.maxStep]

/-- The function `SS2K::moveStepper` (Main.cpp, lines 389-459). -/
def moveStepper (c : Consts) (r : StepperReads) (s : State) : State × List Event :=
  if s.stepper then
    let s1 : State :=
      { s with ss2k := { s.ss2k with stepperIsRunning := r.isRunning, currentPosition := r.posAtEntry } }
    let s2 : State := { s1 with ss2k := { s1.ss2k with targetPosition := computeTargetPosition s1 } }
    let evSync : List Event :=
      if s2.ss2k.syncMode then
        [Event.stopMove, Event.vTaskDelay 100, Event.setCurrentPosition s2.ss2k.targetPosition,
          Event.vTaskDelay 100]
      else []
    let evMove := boundedMove r s2
    let s3 : State := { s2 with rtConfig := { s2.rtConfig with currentIncline := (r.posIncline : ℚ) } }
    let evEnable : List Event :=
      if r.clientCount > 0 then [Event.setAutoEnable false, Event.enableOutputs]
      else [Event.setAutoEnable true]
    let evDir : List Event :=
      if r.dirAtEntry ≠ r.dirAtExit then
        List.replicate r.runningPolls (Event.vTaskDelay 100) ++
          [Event.setDirectionPin c.dirPin r.dirApplied]
      else []
    (s3, evSync ++ evMove ++ evEnable ++ evDir)
  else (s, [])

/-- The function `SS2K::checkDriverTemperature` (Main.cpp, lines 565-579).  The
arguments `t1`, `t2`, `t3` are `static_cast<int>(temperatureRead())` at lines 567,
568 and 572. -/
def checkDriverTemperature (c : Consts) (t1 t2 t3 : Int) (s : State) : State × List Event :=
  if t1 > c.THROTTLE_TEMP then
    let throttledPower : Int := ((c.THROTTLE_TEMP - t2) + c.pwrScaler) % 256
    ({ s with ss2k := { s.ss2k with overTemp := true } }, [Event.irun throttledPower])
  else if t3 < c.THROTTLE_TEMP then
    ({ s with ss2k := { s.ss2k with overTemp := false } },
      if s.ss2k.overTemp then [Event.irun (c.pwrScaler % 256)] else [])
  else (s, [])

/-- The frame `txSerial` builds (lines 592-608): the initial buffer, the request
id the `switch` stores at `PELOTON_REQ_POS` (none when no case matches), and the
checksum stored at `PELOTON_CHECKSUM_POS`. -/
def pollFrame (c : Consts) (requestId : Option Nat) : List Nat :=
  let buf : List Nat := [c.PELOTON_REQUEST, 0x00, 0x00, c.PELOTON_FOOTER]
  let buf1 : List Nat :=
    match requestId with
    | some id => buf.set c.PELOTON_REQ_POS id
    | none => buf
  buf1.set c.PELOTON_CHECKSUM_POS ((buf1.getD 0 0 + buf1.getD 1 0) % 256)

/-- The function `SS2K::txSerial` (Main.cpp, lines 589-623).  The argument
`availableForWrite` is the value of `auxSerial.availableForWrite()`. -/
def txSerial (c : Consts) (availableForWrite : Nat) (s : State) : State × List Event :=
  if c.PELOTON_TX = true ∧ s.ss2k.txCheck ≥ 1 then
    let r : Option Nat × State :=
      if s.ss2k.alternate = 0 then
        (some c.PELOTON_POW_ID,
          { s with ss2k := { s.ss2k with alternate := s.ss2k.alternate + 1 } })
      else if s.ss2k.alternate = 1 then
        (some c.PELOTON_CAD_ID,
          { s with ss2k := { s.ss2k with alternate := s.ss2k.alternate + 1 } })
      else if s.ss2k.alternate = 2 then
        (some c.PELOTON_RES_ID,
          { s with ss2k := { s.ss2k with alternate := 0, txCheck := s.ss2k.txCheck - 1 } })
      else (none, s)
    (r.2, if availableForWrite ≥ c.PELOTON_RQ_SIZE then
        [Event.auxSerialWrite ((pollFrame c r.1).take c.PELOTON_RQ_SIZE)] else [])
  else if c.PELOTON_TX = true ∧ s.ss2k.txCheck ≤ 0 then
    let txCheck1 : Int :=
      if s.ss2k.txCheck = 0 then -c.TX_CHECK_INTERVAL
      else if s.ss2k.txCheck = -1 then 1
      else s.ss2k.txCheck
    ({ s with
        ss2k := { s.ss2k with pelotonIsConnected := false, txCheck := txCheck1 + 1 },
        rtConfig := { s.rtConfig with
          minResistance := -c.DEFAULT_RESISTANCE_RANGE,
          maxResistance := c.DEFAULT_RESISTANCE_RANGE } }, [])
  else (s, [])

/-- The run of `n` successive calls of `txSerial` with nothing received in
between: the state reached and the frames written; `avail k` is the transmit room
seen by call number `k` (counted from 0). -/
def txSerialRun (c : Consts) (avail : Nat → Nat) : Nat → State → State × List Event
  | 0, s => (s, [])
  | n + 1, s =>
    let first := txSerial c (avail 0) s
    let others := txSerialRun c (fun k => avail (k + 1)) n first.1
    (others.1, first.2 ++ others.2)

/-- The three writes of one poll round: power, cadence, resistance request. -/
def pollRound (c : Consts) : List Event :=
  [Event.auxSerialWrite ((pollFrame c (some c.PELOTON_POW_ID)).take c.PELOTON_RQ_SIZE),
    Event.auxSerialWrite ((pollFrame c (some c.PELOTON_CAD_ID)).take c.PELOTON_RQ_SIZE),
    Event.auxSerialWrite ((pollFrame c (some c.PELOTON_RES_ID)).take c.PELOTON_RQ_SIZE)]

/-- The writes of `n` poll rounds. -/
def pollRounds (c : Consts) : Nat → List Event
  | 0 => []
  | n + 1 => pollRound c ++ pollRounds c n

/-- The function `SS2K::pelotonConnected` (Main.cpp, lines 625-634). -/
def pelotonConnected (c : Consts) (s : State) : State :=
  let s1 : State := { s with ss2k := { s.ss2k with txCheck := c.TX_CHECK_INTERVAL } }
  if s1.rtConfig.resistance.value > 0 then
    { s1 with rtConfig := { s1.rtConfig with
        minResistance := c.MIN_PELOTON_RESISTANCE, maxResistance := c.MAX_PELOTON_RESISTANCE } }
  else
    { s1 with rtConfig := { s1.rtConfig with
        minResistance := -c.DEFAULT_RESISTANCE_RANGE, maxResistance := c.DEFAULT_RESISTANCE_RANGE } }

/-- The interface `SensorData`: the capability flags and values of one decoded
payload. -/
structure SensorData where
  hasHeartRate : Bool
  hasCadence : Bool
  hasPower : Bool
  hasSpeed : Bool
  hasResistance : Bool
  getHeartRate : Int
  /-- The decoded cadence, at the value the `int` store of `Measurement` keeps. -/
  getCadence : Int
  getPower : Int
  getSpeed : ℚ
  getResistance : Int
  deriving DecidableEq

/-- Collaborators of `collectAndSet` that are not part of the embedded sources. -/
structure Env where
  /-- The decoder `sensorDataFactory.getSensorData(charUUID, address, pData, length)`. -/
  getSensorData : Nat → Nat → List Nat → SensorData
  /-- The value of the `k`-th call of `analogRead(POT_PIN)`. -/
  analogRead : Nat → Int
  /-- The library function `pow`. -/
  pow : ℚ → ℚ → ℚ

/-- The test that makes `collectAndSet` skip cadence and power of the aux link:
the payload is Peloton data and the configured power meter is neither "none" nor
"any". -/
def skipPelotonMetric (c : Consts) (charUUID : Nat) (s : State) : Bool :=
  (charUUID == c.PELOTON_DATA_UUID) &&
    !((s.userConfig.connectedPowerMeter == "none") || (s.userConfig.connectedPowerMeter == "any"))

/-- The potentiometer block of `collectAndSet` (SensorCollector.cpp, lines 59-100). -/
def jorotoBlock (env : Env) (s : State) : State :=
  let potValue : Int :=
    Int.tdiv (env.analogRead s.potReads + env.analogRead (s.potReads + 1)) 2
  let s0 : State := { s with potReads := s.potReads + 2 }
  if potValue = 4095 then s0
  else if potValue = 0 then s0
  else
    let potPercent : Int :=
      if potValue < 50 then 1 else if potValue ≥ 2500 then 100 else Int.tdiv potValue 25
    let s1 : State :=
      { s0 with rtConfig := { s0.rtConfig with
          minResistance := 5, maxResistance := 98,
          resistance := { s0.rtConfig.resistance with value := potPercent } } }
    let cadence0 : Int := s1.rtConfig.cad.value
    let jorotoCadence : Int := if cadence0 < 15 then 0 else cadence0
    let raw : ℚ :=
      if potPercent < 10 then
        (potPercent : ℚ) * env.pow ((jorotoCadence : ℚ) / 100) (3 / 2) * (7228958 / 1000000) +
          ((jorotoCadence - Int.tdiv jorotoCadence 100 * 60 : Int) : ℚ)
      else
        (potPercent : ℚ) * env.pow ((jorotoCadence : ℚ) / 100) (3 / 2) * (7228958 / 1000000) +
          ((jorotoCadence - 40 : Int) : ℚ)
    let jorotoPower0 : Int := truncToInt raw
    let jorotoPower : Int := if jorotoPower0 < 0 then 0 else jorotoPower0
    { s1 with
      rtConfig := { s1.rtConfig with watts := { s1.rtConfig.watts with value := jorotoPower } },
      spinBLEClient := { s1.spinBLEClient with connectedPM := true } }

/-- The heart rate block of `collectAndSet` (SensorCollector.cpp, lines 29-34). -/
def fuseHeartRate (sensorData : SensorData) (s : State) : State :=
  if sensorData.hasHeartRate && !s.rtConfig.hr.simulate then
    { s with
      rtConfig := { s.rtConfig with hr := { s.rtConfig.hr with value := sensorData.getHeartRate } },
      spinBLEClient := { s.spinBLEClient with connectedHRM := true } }
  else s

/-- The cadence block of `collectAndSet` (SensorCollector.cpp, lines 36-45). -/
def fuseCadence (c : Consts) (charUUID : Nat) (sensorData : SensorData) (s : State) : State :=
  if sensorData.hasCadence && !s.rtConfig.cad.simulate then
    if skipPelotonMetric c charUUID s then s
    else
      { s with
        rtConfig := { s.rtConfig with cad := { s.rtConfig.cad with value := sensorData.getCadence } },
        spinBLEClient := { s.spinBLEClient with connectedCD := true } }
  else s

/-- The power block of `collectAndSet` (SensorCollector.cpp, lines 47-102). -/
def fusePower (c : Consts) (env : Env) (charUUID : Nat) (sensorData : SensorData) (s : State) :
    State :=
  if sensorData.hasPower && !s.rtConfig.watts.simulate then
    if skipPelotonMetric c charUUID s then s else jorotoBlock env s
  else s

/-- The speed block of `collectAndSet` (SensorCollector.cpp, lines 104-109). -/
def fuseSpeed (sensorData : SensorData) (s : State) : State :=
  if sensorData.hasSpeed then
    { s with
      rtConfig := { s.rtConfig with simulatedSpeed := sensorData.getSpeed },
      spinBLEClient := { s.spinBLEClient with connectedSpeed := true } }
  else s

/-- The resistance block of `collectAndSet` (SensorCollector.cpp, lines 111-119). -/
def fuseResistance (c : Consts) (charUUID : Nat) (sensorData : SensorData) (s : State) : State :=
  if sensorData.hasResistance then
    if s.rtConfig.maxResistance = c.MAX_PELOTON_RESISTANCE ∧ charUUID ≠ c.PELOTON_DATA_UUID then s
    else
      { s with rtConfig := { s.rtConfig with
          resistance := { s.rtConfig.resistance with value := sensorData.getResistance } } }
  else s

/-- The function `collectAndSet` (SensorCollector.cpp, lines 18-130): the five
blocks in program order; the log buffer is left out. -/
def collectAndSet (c : Consts) (env : Env) (charUUID _serviceUUID address : Nat)
    (pData : List Nat) (s : State) : State :=
  let sensorData := env.getSensorData charUUID address pData
  fuseResistance c charUUID sensorData
    (fuseSpeed sensorData
      (fusePower c env charUUID sensorData
        (fuseCadence c charUUID sensorData
          (fuseHeartRate sensorData s))))

/-- The header scan of `SS2K::rxSerial` (lines 640-650) over the bytes from index
`i` on: every header byte marks the link connected and forwards the bytes from
that position to `collectAndSet`. -/
def rxScan (c : Consts) (env : Env) : List Nat → State → State
  | [], s => s
  | b :: rest, s =>
    if b = c.PELOTON_HEADER then
      rxScan c env rest
        (collectAndSet c env c.PELOTON_DATA_UUID c.PELOTON_DATA_UUID c.PELOTON_ADDRESS (b :: rest)
          { s with ss2k := { s.ss2k with pelotonIsConnected := true } })
    else rxScan c env rest s

/-- The function `SS2K::rxSerial` (Main.cpp, lines 636-652).  The argument lists,
one entry per pass of the `while (auxSerial.available())` loop, the bytes that
`readBytesUntil` stored in `auxSerialBuffer.data`. -/
def rxSerial (c : Consts) (env : Env) : List (List Nat) → State → State
  | [], s => s
  | data :: more, s => rxSerial c env more (rxScan c env data (pelotonConnected c s))

/-- The shifter moves by `d` positions (the interrupt handlers add to
`shifterPosition`), then the control loop runs `FTMSModeShiftModifier` once. -/
def shiftThenModify (c : Consts) (s : State) (d : Int) : State :=
  (FTMSModeShiftModifier c (setShifterPosition s (s.rtConfig.shifterPosition + d))).1

/-- A sequence of shifts, each followed by one pass of `FTMSModeShiftModifier`. -/
def shiftsThenModify (c : Consts) (s : State) (ds : List Int) : State :=
  ds.foldl (shiftThenModify c) s

/-- The function `SS2K::deBounce` (Main.cpp, lines 461-469).  The arguments
`now1` and `now2` are the values of `millis()` at lines 462 and 464; the
difference is unsigned, of width `timeBits`. -/
def deBounce (c : Consts) (now1 now2 : Nat) (s : State) : Bool × State :=
  if ((now1 : Int) - (s.ss2k.lastDebounceTime : Int)) % (2 ^ c.timeBits : Int)
      > (s.ss2k.debounceDelay : Int) then
    (true, { s with ss2k := { s.ss2k with lastDebounceTime := now2 % 2 ^ c.timeBits } })
  else (false, s)

/-- The interrupt handler `SS2K::shiftUp` (Main.cpp, lines 472-480); `pinLevel` is
the value of `digitalRead(currentBoard.shiftUpPin)`, low (false) being the active
level. -/
def shiftUp (c : Consts) (now1 now2 : Nat) (pinLevel : Bool) (s : State) : State :=
  let d := deBounce c now1 now2 s
  if d.1 then
    if !pinLevel then
      setShifterPosition d.2
        (d.2.rtConfig.shifterPosition - 1 + (if d.2.userConfig.shifterDir then 1 else 0) * 2)
    else { d.2 with ss2k := { d.2.ss2k with lastDebounceTime := 0 } }
  else d.2

/-- The interrupt handler `SS2K::shiftDown` (Main.cpp, lines 482-490); `pinLevel`
is the value of `digitalRead(currentBoard.shiftDownPin)`. -/
def shiftDown (c : Consts) (now1 now2 : Nat) (pinLevel : Bool) (s : State) : State :=
  let d := deBounce c now1 now2 s
  if d.1 then
    if !pinLevel then
      setShifterPosition d.2
        (d.2.rtConfig.shifterPosition + 1 - (if d.2.userConfig.shifterDir then 1 else 0) * 2)
    else { d.2 with ss2k := { d.2.ss2k with lastDebounceTime := 0 } }
  else d.2

/-- One button edge: the handler `setup()` attaches to the pin of that button
(Main.cpp, lines 152-153). -/
def shiftEdge (c : Consts) (upButton : Bool) (now1 now2 : Nat) (pinLevel : Bool) (s : State) :
    State :=
  if upButton then shiftUp c now1 now2 pinLevel s else shiftDown c now1 now2 pinLevel s

/-- One pass of `SS2K::maintenanceLoop` over `moveStepper` (line 187) and
`FTMSModeShiftModifier` (line 193); the calls in between (`runERG`,
`webClientUpdate`) belong to other modules and are left out. -/
def controlTick (c : Consts) (r : StepperReads) (s : State) : State × List Event :=
  let moved := moveStepper c r s
  let shifted := FTMSModeShiftModifier c moved.1
  (shifted.1, moved.2 ++ shifted.2)

/-- Successive calls of `checkDriverTemperature`, one per temperature sample (the
three reads of a call return the sample). -/
def checkDriverTemperatureRun (c : Consts) : List Int → State → State × List Event
  | [], s => (s, [])
  | t :: ts, s =>
    let first := checkDriverTemperature c t t t s
    let others := checkDriverTemperatureRun c ts first.1
    (others.1, first.2 ++ others.2)

/-- The suffixes of a byte run that start at a header byte, in order of position. -/
def headerSuffixes (c : Consts) : List Nat → List (List Nat)
  | [] => []
  | b :: rest =>
    if b = c.PELOTON_HEADER then (b :: rest) :: headerSuffixes c rest else headerSuffixes c rest

/-- The arguments of the `setDirectionPin` calls of an event list, in order. -/
def directionCalls : List Event → List (Nat × Bool)
  | [] => []
  | Event.setDirectionPin pin dir :: es => (pin, dir) :: directionCalls es
  | _ :: es => directionCalls es

/-! ## Sample configuration for concrete evaluations -/

/-- A sample set of constants (the headers that fix them are outside the sources). -/
def sampleConsts : Consts :=
  { ERG_PER_SHIFT := 10, THROTTLE_TEMP := 72, TX_CHECK_INTERVAL := 2,
    DEFAULT_RESISTANCE_RANGE := 50, MIN_PELOTON_RESISTANCE := 0, MAX_PELOTON_RESISTANCE := 100,
    PELOTON_TX := true, PELOTON_REQUEST := 0xF5, PELOTON_FOOTER := 0xF6, PELOTON_HEADER := 0xF1,
    PELOTON_REQ_POS := 1, PELOTON_CHECKSUM_POS := 2, PELOTON_POW_ID := 0x44,
    PELOTON_CAD_ID := 0x41, PELOTON_RES_ID := 0x4A, PELOTON_RQ_SIZE := 4,
    PELOTON_DATA_UUID := 1, PELOTON_ADDRESS := 0, BLE_shifterPosition := 0x17,
    INTERNAL_ERG_4EXT_FTMS := false, pwrScaler := 31, dirPin := 12, timeBits := 32 }

/-- A metric at rest: value and target zero, not simulated. -/
def idleMeasurement : Measurement := { value := 0, target := 0, simulate := false }

/-- A sample state: simulation mode, everything at rest, stepper present, limits
`[-100, 100]` on the stepper and `[-50, 50]` on the resistance. -/
def sampleState : State :=
  { rtConfig :=
      { hr := idleMeasurement, cad := idleMeasurement, watts := idleMeasurement,
        resistance := idleMeasurement, targetIncline := 0, currentIncline := 0,
        simulatedSpeed := 0, shifterPosition := 0,
        FTMSMode := .SetIndoorBikeSimulationParameters,
        minStep := -100, maxStep := 100, minResistance := -50, maxResistance := 50 },
    userConfig :=
      { shiftStep := 10, inclineMultiplier := 0, stepperSpeed := 1500, minWatts := 50,
        maxWatts := 400, powerCorrectionFactor := 1, shifterDir := false,
        connectedPowerMeter := "any" },
    ss2k :=
      { targetPosition := 0, currentPosition := 0, stepperIsRunning := false,
        externalControl := false, syncMode := false, pelotonIsConnected := false,
        lastShifterPosition := 0, txCheck := 2, lastDebounceTime := 0, debounceDelay := 50,
        alternate := 0, overTemp := false },
    spinBLEClient :=
      { connectedPM := false, connectedHRM := false, connectedCD := false, connectedSpeed := false },
    stepper := true,
    potReads := 0 }

/-- A decoded payload that carries nothing. -/
def emptySensorData : SensorData :=
  { hasHeartRate := false, hasCadence := false, hasPower := false, hasSpeed := false,
    hasResistance := false, getHeartRate := 0, getCadence := 0, getPower := 0, getSpeed := 0,
    getResistance := 0 }

/-- A sample environment: every payload decodes to `sd`, the potentiometer reads
1000, and `pow x y` is replaced by `x`. -/
def sampleEnv (sd : SensorData) : Env :=
  { getSensorData := fun _ _ _ => sd, analogRead := fun _ => 1000, pow := fun x _ => x }

/-- Stepper reads of a tick in which the actuator rests at position `p`. -/
def restingReads (p : Int) : StepperReads :=
  { dirAtEntry := false, isRunning := false, posAtEntry := p, posNudge := p, posShiftOut := p,
    posIncline := p, clientCount := 0, dirAtExit := false, dirApplied := false, runningPolls := 0 }

/-- An ERG mode state with target `t`, shifter at `p` and last seen shifter
position 0; `minWatts = 50`, `maxWatts = 400`, `ERG_PER_SHIFT = 10`. -/
def ergState (t p : Int) : State :=
  { sampleState with
    rtConfig := { sampleState.rtConfig with
      FTMSMode := .SetTargetPower, shifterPosition := p,
      watts := { value := 0, target := t, simulate := false } } }

/-- A simulation mode state: stepper target `tp`, shifter at `p`, last seen
shifter position 0, resistance value `r`; `shiftStep = 10`, stepper limits
`[-100, 100]`, resistance limits `[-50, 50]`. -/
def simState (tp p r : Int) : State :=
  { sampleState with
    rtConfig := { sampleState.rtConfig with
      shifterPosition := p, resistance := { value := r, target := 0, simulate := false } },
    ss2k := { sampleState.ss2k with targetPosition := tp } }

/-- A resistance mode state: resistance target `t`, shifter at `p`, last seen
shifter position 0, aux link connected or not; resistance limits `[-50, 50]`. -/
def resistanceState (t p : Int) (connected : Bool) : State :=
  { sampleState with
    rtConfig := { sampleState.rtConfig with
      FTMSMode := .SetTargetResistanceLevel, shifterPosition := p,
      resistance := { value := 0, target := t, simulate := false } },
    ss2k := { sampleState.ss2k with pelotonIsConnected := connected } }

/-- A state for the bounds section of `moveStepper`: the target is under external
control and stays `tp`, the resistance value is `r`, the aux link is connected or
not; stepper limits `[-100, 100]`, resistance limits `[-50, 50]`. -/
def boundsState (tp r : Int) (connected : Bool) : State :=
  { sampleState with
    rtConfig := { sampleState.rtConfig with
      resistance := { value := r, target := 0, simulate := false } },
    ss2k := { sampleState.ss2k with
      targetPosition := tp, externalControl := true, pelotonIsConnected := connected } }

/-- An armed aux link: connected, liveness counter at `TX_CHECK_INTERVAL = 2`,
round-robin index at the power request, resistance limits at the native range
`[0, 100]`, resistance value 30. -/
def armedState : State :=
  { sampleState with
    rtConfig := { sampleState.rtConfig with
      minResistance := 0, maxResistance := 100,
      resistance := { value := 30, target := 0, simulate := false } },
    ss2k := { sampleState.ss2k with pelotonIsConnected := true, txCheck := 2, alternate := 0 } }

/-- An aux link in hold-off: not marked connected, liveness counter at -1. -/
def holdoffState : State :=
  { sampleState with ss2k := { sampleState.ss2k with pelotonIsConnected := false, txCheck := -1 } }

/-- An environment whose potentiometer reads `pot` and in which every payload
decodes to `sd`; `pow x y` is replaced by `x`. -/
def potEnv (sd : SensorData) (pot : Int) : Env :=
  { getSensorData := fun _ _ _ => sd, analogRead := fun _ => pot, pow := fun x _ => x }

/-- A state for the potentiometer block: cadence `cad`, power value 77. -/
def cadenceState (cad : Int) : State :=
  { sampleState with rtConfig := { sampleState.rtConfig with
      cad := { value := cad, target := 0, simulate := false },
      watts := { value := 77, target := 0, simulate := false } } }

/-- A payload that carries power only. -/
def powerSensorData : SensorData := { emptySensorData with hasPower := true }

/-- An environment whose decoder reports, as heart rate, the length of the frame
it is handed. -/
def lengthEnv : Env :=
  { getSensorData := fun _ _ pData =>
      { emptySensorData with hasHeartRate := true, getHeartRate := (pData.length : Int) },
    analogRead := fun _ => 1000, pow := fun x _ => x }

/-- A state with `syncMode` set: the target is under external control and stays
`tp`, the aux link is not connected. -/
def syncState (tp : Int) : State :=
  { sampleState with ss2k := { sampleState.ss2k with
      targetPosition := tp, externalControl := true, syncMode := true } }

/-- An aux link whose liveness counter has just reached 0: still marked
connected, round-robin index at the power request. -/
def zeroCounterState : State :=
  { sampleState with ss2k := { sampleState.ss2k with
      pelotonIsConnected := true, txCheck := 0, alternate := 0 } }

/-- A simulation mode state with a pending shift: the shifter has moved from 9 to
10, `externalControl` is off, `shiftStep = 10`, incline 0, stepper limits
`[-100, 100]`, resistance value 0 inside `[-50, 50]`. -/
def pendingShiftState : State :=
  { sampleState with
    rtConfig := { sampleState.rtConfig with shifterPosition := 10 },
    ss2k := { sampleState.ss2k with lastShifterPosition := 9, targetPosition := 90 } }

/-- Stepper reads of a tick in which the actuator rests at position `p` and every
read of `userConfig->getStepperDir()` returns `dir`. -/
def readsWithDir (p : Int) (dir : Bool) : StepperReads :=
  { restingReads p with dirAtEntry := dir, dirAtExit := dir, dirApplied := dir }

/-! ## Telemetry fusion -/

theorem jorotoBlock_hr (env : Env) (s : State) :
    (jorotoBlock env s).rtConfig.hr = s.rtConfig.hr := by
  unfold jorotoBlock
  simp only
  split_ifs <;> rfl

theorem jorotoBlock_cad (env : Env) (s : State) :
    (jorotoBlock env s).rtConfig.cad = s.rtConfig.cad := by
  unfold jorotoBlock
  simp only
  split_ifs <;> rfl

theorem fuseHeartRate_frame (sd : SensorData) (s : State) :
    (fuseHeartRate sd s).rtConfig.cad = s.rtConfig.cad ∧
    (fuseHeartRate sd s).rtConfig.watts = s.rtConfig.watts ∧
    (fuseHeartRate sd s).rtConfig.resistance = s.rtConfig.resistance := by
  unfold fuseHeartRate
  split_ifs <;> exact ⟨rfl, rfl, rfl⟩

theorem fuseHeartRate_simulate (sd : SensorData) (s : State)
    (h : s.rtConfig.hr.simulate = true) : fuseHeartRate sd s = s := by
  simp [fuseHeartRate, h]

theorem fuseCadence_frame (c : Consts) (u : Nat) (sd : SensorData) (s : State) :
    (fuseCadence c u sd s).rtConfig.hr = s.rtConfig.hr ∧
    (fuseCadence c u sd s).rtConfig.watts = s.rtConfig.watts ∧
    (fuseCadence c u sd s).rtConfig.resistance = s.rtConfig.resistance := by
  unfold fuseCadence
  split_ifs <;> exact ⟨rfl, rfl, rfl⟩

theorem fuseCadence_simulate (c : Consts) (u : Nat) (sd : SensorData) (s : State)
    (h : s.rtConfig.cad.simulate = true) : fuseCadence c u sd s = s := by
  simp [fuseCadence, h]

theorem fusePower_frame (c : Consts) (env : Env) (u : Nat) (sd : SensorData) (s : State) :
    (fusePower c env u sd s).rtConfig.hr = s.rtConfig.hr ∧
    (fusePower c env u sd s).rtConfig.cad = s.rtConfig.cad := by
  unfold fusePower
  split_ifs <;> simp [jorotoBlock_hr, jorotoBlock_cad]

theorem fusePower_simulate (c : Consts) (env : Env) (u : Nat) (sd : SensorData) (s : State)
    (h : s.rtConfig.watts.simulate = true) : fusePower c env u sd s = s := by
  simp [fusePower, h]

theorem fusePower_noPower (c : Consts) (env : Env) (u : Nat) (sd : SensorData) (s : State)
    (h : sd.hasPower = false) : fusePower c env u sd s = s := by
  simp [fusePower, h]

theorem fuseSpeed_frame (sd : SensorData) (s : State) :
    (fuseSpeed sd s).rtConfig.hr = s.rtConfig.hr ∧
    (fuseSpeed sd s).rtConfig.cad = s.rtConfig.cad ∧
    (fuseSpeed sd s).rtConfig.watts = s.rtConfig.watts ∧
    (fuseSpeed sd s).rtConfig.resistance = s.rtConfig.resistance := by
  unfold fuseSpeed
  split_ifs <;> exact ⟨rfl, rfl, rfl, rfl⟩

theorem fuseResistance_frame (c : Consts) (u : Nat) (sd : SensorData) (s : State) :
    (fuseResistance c u sd s).rtConfig.hr = s.rtConfig.hr ∧
    (fuseResistance c u sd s).rtConfig.cad = s.rtConfig.cad ∧
    (fuseResistance c u sd s).rtConfig.watts = s.rtConfig.watts := by
  unfold fuseResistance
  split_ifs <;> exact ⟨rfl, rfl, rfl⟩

theorem fuseResistance_noResistance (c : Consts) (u : Nat) (sd : SensorData) (s : State)
    (h : sd.hasResistance = false) : fuseResistance c u sd s = s := by
  simp [fuseResistance, h]

/-- C1, as amended.  For heart rate, cadence and power: when the metric's
simulate flag is set on entry, `collectAndSet` leaves the metric's value as it
was, for every source and every decoded payload.  The resistance blocks do not
read `resistance.simulate`: the resistance value is left as it was when the
payload carries neither power nor resistance. -/
theorem collectAndSet_simulate_frame (c : Consts) (env : Env)
    (charUUID serviceUUID address : Nat) (pData : List Nat) (s : State) :
    (s.rtConfig.hr.simulate = true →
      (collectAndSet c env charUUID serviceUUID address pData s).rtConfig.hr.value
        = s.rtConfig.hr.value) ∧
    (s.rtConfig.cad.simulate = true →
      (collectAndSet c env charUUID serviceUUID address pData s).rtConfig.cad.value
        = s.rtConfig.cad.value) ∧
    (s.rtConfig.watts.simulate = true →
      (collectAndSet c env charUUID serviceUUID address pData s).rtConfig.watts.value
        = s.rtConfig.watts.value) ∧
    ((env.getSensorData charUUID address pData).hasPower = false →
      (env.getSensorData charUUID address pData).hasResistance = false →
      (collectAndSet c env charUUID serviceUUID address pData s).rtConfig.resistance.value
        = s.rtConfig.resistance.value) := by
  refine ⟨?_, ?_, ?_, ?_⟩
  · intro h
    simp only [collectAndSet]
    rw [(fuseResistance_frame _ _ _ _).1, (fuseSpeed_frame _ _).1, (fusePower_frame _ _ _ _ _).1,
      (fuseCadence_frame _ _ _ _).1, fuseHeartRate_simulate _ _ h]
  · intro h
    simp only [collectAndSet]
    rw [(fuseResistance_frame _ _ _ _).2.1, (fuseSpeed_frame _ _).2.1,
      (fusePower_frame _ _ _ _ _).2, fuseCadence_simulate, (fuseHeartRate_frame _ _).1]
    rw [(fuseHeartRate_frame _ _).1]
    exact h
  · intro h
    simp only [collectAndSet]
    rw [(fuseResistance_frame _ _ _ _).2.2, (fuseSpeed_frame _ _).2.2.1, fusePower_simulate,
      (fuseCadence_frame _ _ _ _).2.1, (fuseHeartRate_frame _ _).2.1]
    rw [(fuseCadence_frame _ _ _ _).2.1, (fuseHeartRate_frame _ _).2.1]
    exact h
  · intro hp hr
    simp only [collectAndSet]
    rw [fuseResistance_noResistance _ _ _ _ hr, (fuseSpeed_frame _ _).2.2.2,
      fusePower_noPower _ _ _ _ _ hp, (fuseCadence_frame _ _ _ _).2.2,
      (fuseHeartRate_frame _ _).2.2]

/-- C1, witness: a simulated heart rate of 60 survives a payload that reports 150. -/
theorem collectAndSet_simulate_frame_witness :
    (collectAndSet sampleConsts
        (sampleEnv { emptySensorData with hasHeartRate := true, getHeartRate := 150 }) 7 7 0 []
        { sampleState with rtConfig := { sampleState.rtConfig with
            hr := { value := 60, target := 0, simulate := true } } }).rtConfig.hr.value = 60 :=
  (collectAndSet_simulate_frame sampleConsts
    (sampleEnv { emptySensorData with hasHeartRate := true, getHeartRate := 150 }) 7 7 0 []
    { sampleState with rtConfig := { sampleState.rtConfig with
        hr := { value := 60, target := 0, simulate := true } } }).1 rfl

/-- C1, counterexample: with `resistance.simulate` set, a payload that carries a
resistance of 42 changes the resistance value from 0 to 42. -/
theorem collectAndSet_resistance_simulate_overwritten :
    ({ sampleState with rtConfig := { sampleState.rtConfig with
        resistance := { value := 0, target := 0, simulate := true } } } : State).rtConfig.resistance.simulate
      = true ∧
    (collectAndSet sampleConsts
        (sampleEnv { emptySensorData with hasResistance := true, getResistance := 42 }) 7 7 0 []
        { sampleState with rtConfig := { sampleState.rtConfig with
            resistance := { value := 0, target := 0, simulate := true } } }).rtConfig.resistance.value
      = 42 := by
  decide

/-! ## Shifter input: ERG mode -/

/-- What one pass of `FTMSModeShiftModifier` does in ERG mode on a pending shift. -/
theorem FTMSModeShiftModifier_erg_state (c : Consts) (s : State)
    (hmode : s.rtConfig.FTMSMode = .SetTargetPower)
    (hd : s.rtConfig.shifterPosition - s.ss2k.lastShifterPosition ≠ 0) :
    (FTMSModeShiftModifier c s).1.rtConfig.watts.target =
      (if s.rtConfig.watts.target
            + (s.rtConfig.shifterPosition - s.ss2k.lastShifterPosition) * c.ERG_PER_SHIFT
            < s.userConfig.minWatts ∨
          s.rtConfig.watts.target
            + (s.rtConfig.shifterPosition - s.ss2k.lastShifterPosition) * c.ERG_PER_SHIFT
            > s.userConfig.maxWatts
        then s.rtConfig.watts.target
        else s.rtConfig.watts.target
          + (s.rtConfig.shifterPosition - s.ss2k.lastShifterPosition) * c.ERG_PER_SHIFT) ∧
    (FTMSModeShiftModifier c s).1.rtConfig.shifterPosition = s.ss2k.lastShifterPosition ∧
    (FTMSModeShiftModifier c s).1.ss2k.lastShifterPosition = s.ss2k.lastShifterPosition ∧
    (FTMSModeShiftModifier c s).1.rtConfig.FTMSMode = s.rtConfig.FTMSMode ∧
    (FTMSModeShiftModifier c s).1.userConfig = s.userConfig := by
  simp only [FTMSModeShiftModifier, hmode, hd, ne_eq, not_false_eq_true, if_true, ergShift,
    setShifterPosition, setWattsTarget]
  split_ifs <;> simp [mul_comm]

/-- One rejected shift in ERG mode, from a state without pending shift, keeps
the target, the mode, the configuration, and leaves no pending shift. -/
theorem shiftThenModify_rejected (c : Consts) (s : State) (d : Int)
    (hmode : s.rtConfig.FTMSMode = .SetTargetPower)
    (hpos : s.rtConfig.shifterPosition = s.ss2k.lastShifterPosition)
    (hrej : s.rtConfig.watts.target + d * c.ERG_PER_SHIFT < s.userConfig.minWatts ∨
      s.rtConfig.watts.target + d * c.ERG_PER_SHIFT > s.userConfig.maxWatts) :
    (shiftThenModify c s d).rtConfig.watts.target = s.rtConfig.watts.target ∧
    (shiftThenModify c s d).rtConfig.FTMSMode = .SetTargetPower ∧
    (shiftThenModify c s d).rtConfig.shifterPosition
      = (shiftThenModify c s d).ss2k.lastShifterPosition ∧
    (shiftThenModify c s d).userConfig = s.userConfig := by
  by_cases hd : d = 0
  · subst hd
    simp [shiftThenModify, FTMSModeShiftModifier, setShifterPosition, hpos, hmode]
  · have hdelta : (setShifterPosition s (s.rtConfig.shifterPosition + d)).rtConfig.shifterPosition
        - (setShifterPosition s (s.rtConfig.shifterPosition + d)).ss2k.lastShifterPosition = d := by
      simp [setShifterPosition, hpos]
    have hmode2 : (setShifterPosition s (s.rtConfig.shifterPosition + d)).rtConfig.FTMSMode
        = .SetTargetPower := by
      simpa [setShifterPosition] using hmode
    have key := FTMSModeShiftModifier_erg_state c
      (setShifterPosition s (s.rtConfig.shifterPosition + d)) hmode2 (by rw [hdelta]; exact hd)
    rw [hdelta] at key
    obtain ⟨k1, k2, k3, k4, k5⟩ := key
    have hrej2 : (setShifterPosition s (s.rtConfig.shifterPosition + d)).rtConfig.watts.target
          + d * c.ERG_PER_SHIFT
          < (setShifterPosition s (s.rtConfig.shifterPosition + d)).userConfig.minWatts ∨
        (setShifterPosition s (s.rtConfig.shifterPosition + d)).rtConfig.watts.target
          + d * c.ERG_PER_SHIFT
          > (setShifterPosition s (s.rtConfig.shifterPosition + d)).userConfig.maxWatts := by
      simpa [setShifterPosition] using hrej
    rw [if_pos hrej2] at k1
    refine ⟨?_, ?_, ?_, ?_⟩
    · simpa [shiftThenModify, setShifterPosition] using k1
    · simpa [shiftThenModify, setShifterPosition, hmode] using k4
    · simp only [shiftThenModify]
      rw [k2, k3]
    · simpa [shiftThenModify, setShifterPosition] using k5

/-- Any number of rejected shifts in ERG mode keeps the target. -/
theorem shiftsThenModify_rejected (c : Consts) (ds : List Int) :
    ∀ s : State, s.rtConfig.FTMSMode = .SetTargetPower →
      s.rtConfig.shifterPosition = s.ss2k.lastShifterPosition →
      (∀ d ∈ ds, s.rtConfig.watts.target + d * c.ERG_PER_SHIFT < s.userConfig.minWatts ∨
        s.rtConfig.watts.target + d * c.ERG_PER_SHIFT > s.userConfig.maxWatts) →
      (shiftsThenModify c s ds).rtConfig.watts.target = s.rtConfig.watts.target := by
  induction ds with
  | nil => intro s _ _ _; rfl
  | cons d ds ih =>
    intro s hmode hpos hrej
    obtain ⟨h1, h2, h3, h4⟩ :=
      shiftThenModify_rejected c s d hmode hpos (hrej d (List.mem_cons_self d ds))
    have step := ih (shiftThenModify c s d) h2 h3 (by
      intro e he
      rw [h1, h4]
      exact hrej e (List.mem_cons_of_mem d he))
    simp only [shiftsThenModify, List.foldl_cons] at step ⊢
    rw [step, h1]

/-- C2.  In ERG mode, a pending shift `d = shifterPosition - lastShifterPosition`
whose new target `watts.target + d * ERG_PER_SHIFT` is below `minWatts` or above
`maxWatts` leaves `watts.target` unchanged; a new target inside
`[minWatts, maxWatts]`, the two ends included, becomes `watts.target` exactly;
and from a state without pending shift, any sequence of shifts each of which is
rejected leaves `watts.target` unchanged. -/
theorem FTMSModeShiftModifier_erg_shift (c : Consts) (s : State)
    (hmode : s.rtConfig.FTMSMode = .SetTargetPower) :
    (s.rtConfig.shifterPosition - s.ss2k.lastShifterPosition ≠ 0 →
      (s.rtConfig.watts.target
          + (s.rtConfig.shifterPosition - s.ss2k.lastShifterPosition) * c.ERG_PER_SHIFT
          < s.userConfig.minWatts ∨
        s.rtConfig.watts.target
          + (s.rtConfig.shifterPosition - s.ss2k.lastShifterPosition) * c.ERG_PER_SHIFT
          > s.userConfig.maxWatts) →
      (FTMSModeShiftModifier c s).1.rtConfig.watts.target = s.rtConfig.watts.target) ∧
    (s.rtConfig.shifterPosition - s.ss2k.lastShifterPosition ≠ 0 →
      s.userConfig.minWatts ≤ s.rtConfig.watts.target
          + (s.rtConfig.shifterPosition - s.ss2k.lastShifterPosition) * c.ERG_PER_SHIFT →
      s.rtConfig.watts.target
          + (s.rtConfig.shifterPosition - s.ss2k.lastShifterPosition) * c.ERG_PER_SHIFT
          ≤ s.userConfig.maxWatts →
      (FTMSModeShiftModifier c s).1.rtConfig.watts.target
        = s.rtConfig.watts.target
          + (s.rtConfig.shifterPosition - s.ss2k.lastShifterPosition) * c.ERG_PER_SHIFT) ∧
    (s.rtConfig.shifterPosition = s.ss2k.lastShifterPosition →
      ∀ ds : List Int,
        (∀ d ∈ ds, s.rtConfig.watts.target + d * c.ERG_PER_SHIFT < s.userConfig.minWatts ∨
          s.rtConfig.watts.target + d * c.ERG_PER_SHIFT > s.userConfig.maxWatts) →
        (shiftsThenModify c s ds).rtConfig.watts.target = s.rtConfig.watts.target) := by
  refine ⟨?_, ?_, ?_⟩
  · intro hd hrej
    rw [(FTMSModeShiftModifier_erg_state c s hmode hd).1, if_pos hrej]
  · intro hd hlo hhi
    rw [(FTMSModeShiftModifier_erg_state c s hmode hd).1, if_neg (by omega)]
  · intro hpos ds hrej
    exact shiftsThenModify_rejected c ds s hmode hpos hrej

/-- C2, witness: at target 395 a shift up (405 > 400) is rejected and the target
stays 395; at target 390 a shift up lands on `maxWatts` exactly and is accepted;
from 395 three shifts up in a row leave 395. -/
theorem FTMSModeShiftModifier_erg_shift_witness :
    (FTMSModeShiftModifier sampleConsts (ergState 395 1)).1.rtConfig.watts.target = 395 ∧
    (FTMSModeShiftModifier sampleConsts (ergState 390 1)).1.rtConfig.watts.target = 400 ∧
    (shiftsThenModify sampleConsts (ergState 395 0) [1, 1, 1]).rtConfig.watts.target = 395 :=
  ⟨(FTMSModeShiftModifier_erg_shift sampleConsts (ergState 395 1) rfl).1 (by decide) (by decide),
   (FTMSModeShiftModifier_erg_shift sampleConsts (ergState 390 1) rfl).2.1
      (by decide) (by decide) (by decide),
   (FTMSModeShiftModifier_erg_shift sampleConsts (ergState 395 0) rfl).2.2 rfl [1, 1, 1]
      (by decide)⟩

/-! ## Shifter input: simulation mode -/

/-- In a mode other than ERG and resistance, a pending shift runs the simulation
branch. -/
theorem FTMSModeShiftModifier_sim_state (c : Consts) (s : State)
    (herg : s.rtConfig.FTMSMode ≠ .SetTargetPower)
    (hres : s.rtConfig.FTMSMode ≠ .SetTargetResistanceLevel)
    (hd : s.rtConfig.shifterPosition - s.ss2k.lastShifterPosition ≠ 0) :
    (FTMSModeShiftModifier c s).1.rtConfig.shifterPosition
      = (simShift (s.rtConfig.shifterPosition - s.ss2k.lastShifterPosition) s).1.rtConfig.shifterPosition := by
  simp only [FTMSModeShiftModifier, hd, ne_eq, not_false_eq_true, if_true]

/-- C3.  In simulation mode, a pending shift `d` with
`targetPosition + d * shiftStep` below `minStep` or above `maxStep` is reverted:
after the pass `shifterPosition` is the `lastShifterPosition` of before the pass,
whatever the resistance value is. -/
theorem FTMSModeShiftModifier_sim_stepper_limit (c : Consts) (s : State)
    (herg : s.rtConfig.FTMSMode ≠ .SetTargetPower)
    (hres : s.rtConfig.FTMSMode ≠ .SetTargetResistanceLevel)
    (hd : s.rtConfig.shifterPosition - s.ss2k.lastShifterPosition ≠ 0)
    (hout : s.ss2k.targetPosition
          + (s.rtConfig.shifterPosition - s.ss2k.lastShifterPosition) * s.userConfig.shiftStep
          < s.rtConfig.minStep ∨
        s.ss2k.targetPosition
          + (s.rtConfig.shifterPosition - s.ss2k.lastShifterPosition) * s.userConfig.shiftStep
          > s.rtConfig.maxStep) :
    (FTMSModeShiftModifier c s).1.rtConfig.shifterPosition = s.ss2k.lastShifterPosition := by
  rw [FTMSModeShiftModifier_sim_state c s herg hres hd]
  simp only [simShift, if_pos hout, setShifterPosition]

/-- C3, witness: stepper target 95, one shift up of 10 steps would reach 105 > 100;
the shifter is put back to 0, here with the resistance value at 7. -/
theorem FTMSModeShiftModifier_sim_stepper_limit_witness :
    (FTMSModeShiftModifier sampleConsts (simState 95 1 7)).1.rtConfig.shifterPosition = 0 :=
  FTMSModeShiftModifier_sim_stepper_limit sampleConsts (simState 95 1 7)
    (by decide) (by decide) (by decide) (by decide)

/-- C4.  In simulation mode with `minResistance < maxResistance` and a pending
shift `d` that passes the stepper limit check: a shift down while
`resistance.value <= minResistance`, or up while `resistance.value >= maxResistance`,
is reverted to the `lastShifterPosition` of before the pass; a shift up at or
below `minResistance`, a shift down at or above `maxResistance`, and every shift
while the value is strictly between the bounds keep the shifted position. -/
theorem FTMSModeShiftModifier_sim_resistance_limit (c : Consts) (s : State)
    (herg : s.rtConfig.FTMSMode ≠ .SetTargetPower)
    (hres : s.rtConfig.FTMSMode ≠ .SetTargetResistanceLevel)
    (hd : s.rtConfig.shifterPosition - s.ss2k.lastShifterPosition ≠ 0)
    (hbounds : s.rtConfig.minResistance < s.rtConfig.maxResistance)
    (hlo : s.rtConfig.minStep ≤ s.ss2k.targetPosition
          + (s.rtConfig.shifterPosition - s.ss2k.lastShifterPosition) * s.userConfig.shiftStep)
    (hhi : s.ss2k.targetPosition
          + (s.rtConfig.shifterPosition - s.ss2k.lastShifterPosition) * s.userConfig.shiftStep
          ≤ s.rtConfig.maxStep) :
    (((s.rtConfig.resistance.value ≤ s.rtConfig.minResistance ∧
          s.rtConfig.shifterPosition - s.ss2k.lastShifterPosition < 0) ∨
        (s.rtConfig.resistance.value ≥ s.rtConfig.maxResistance ∧
          s.rtConfig.shifterPosition - s.ss2k.lastShifterPosition > 0)) →
      (FTMSModeShiftModifier c s).1.rtConfig.shifterPosition = s.ss2k.lastShifterPosition) ∧
    (((s.rtConfig.resistance.value ≤ s.rtConfig.minResistance ∧
          s.rtConfig.shifterPosition - s.ss2k.lastShifterPosition > 0) ∨
        (s.rtConfig.resistance.value ≥ s.rtConfig.maxResistance ∧
          s.rtConfig.shifterPosition - s.ss2k.lastShifterPosition < 0) ∨
        (s.rtConfig.minResistance < s.rtConfig.resistance.value ∧
          s.rtConfig.resistance.value < s.rtConfig.maxResistance)) →
      (FTMSModeShiftModifier c s).1.rtConfig.shifterPosition = s.rtConfig.shifterPosition) := by
  rw [FTMSModeShiftModifier_sim_state c s herg hres hd]
  have hin : ¬ (s.ss2k.targetPosition
          + (s.rtConfig.shifterPosition - s.ss2k.lastShifterPosition) * s.userConfig.shiftStep
          < s.rtConfig.minStep ∨
        s.ss2k.targetPosition
          + (s.rtConfig.shifterPosition - s.ss2k.lastShifterPosition) * s.userConfig.shiftStep
          > s.rtConfig.maxStep) := by
    omega
  simp only [simShift, if_neg hin, setShifterPosition]
  constructor
  · intro h
    split_ifs <;> first | rfl | omega
  · intro h
    split_ifs <;> first | rfl | omega

/-- C4, witness: with the resistance value at the lower bound -50, a shift down
is put back to 0 and a shift up is kept. -/
theorem FTMSModeShiftModifier_sim_resistance_limit_witness :
    (FTMSModeShiftModifier sampleConsts (simState 0 (-1) (-50))).1.rtConfig.shifterPosition = 0 ∧
    (FTMSModeShiftModifier sampleConsts (simState 0 1 (-50))).1.rtConfig.shifterPosition = 1 :=
  ⟨(FTMSModeShiftModifier_sim_resistance_limit sampleConsts (simState 0 (-1) (-50))
      (by decide) (by decide) (by decide) (by decide) (by decide) (by decide)).1 (by decide),
   (FTMSModeShiftModifier_sim_resistance_limit sampleConsts (simState 0 1 (-50))
      (by decide) (by decide) (by decide) (by decide) (by decide) (by decide)).2 (by decide)⟩

/-! ## Shifter input: resistance mode -/

/-- C5.  In resistance mode with `minResistance <= maxResistance` and a pending
shift `d`: with the aux link connected the new `resistance.target` is the old
target plus `d`, clamped to `[minResistance, maxResistance]`; with the aux link
not connected `resistance.target` is unchanged. -/
theorem FTMSModeShiftModifier_resistance_shift (c : Consts) (s : State)
    (hmode : s.rtConfig.FTMSMode = .SetTargetResistanceLevel)
    (hd : s.rtConfig.shifterPosition - s.ss2k.lastShifterPosition ≠ 0)
    (hbounds : s.rtConfig.minResistance ≤ s.rtConfig.maxResistance) :
    (s.ss2k.pelotonIsConnected = true →
      (FTMSModeShiftModifier c s).1.rtConfig.resistance.target
        = max s.rtConfig.minResistance (min s.rtConfig.maxResistance
            (s.rtConfig.resistance.target
              + (s.rtConfig.shifterPosition - s.ss2k.lastShifterPosition)))) ∧
    (s.ss2k.pelotonIsConnected = false →
      (FTMSModeShiftModifier c s).1.rtConfig.resistance.target = s.rtConfig.resistance.target) := by
  simp only [FTMSModeShiftModifier, hmode, hd, ne_eq, not_false_eq_true, if_true, resistanceShift,
    setShifterPosition, setResistanceTarget]
  constructor
  · intro hc
    simp only [hc, if_true]
    split_ifs <;> simp <;> omega
  · intro hc
    simp [hc]

/-- C5, witness: connected, target 48 and three shifts up give 50 (the upper
bound); not connected, the target stays 48. -/
theorem FTMSModeShiftModifier_resistance_shift_witness :
    (FTMSModeShiftModifier sampleConsts (resistanceState 48 3 true)).1.rtConfig.resistance.target
      = max (-50) (min 50 (48 + (3 - 0))) ∧
    (FTMSModeShiftModifier sampleConsts (resistanceState 48 3 false)).1.rtConfig.resistance.target
      = 48 :=
  ⟨(FTMSModeShiftModifier_resistance_shift sampleConsts (resistanceState 48 3 true)
      rfl (by decide) (by decide)).1 rfl,
   (FTMSModeShiftModifier_resistance_shift sampleConsts (resistanceState 48 3 false)
      rfl (by decide) (by decide)).2 rfl⟩

/-! ## Motion control -/

theorem moveTargets_append (xs ys : List Event) :
    moveTargets (xs ++ ys) = moveTargets xs ++ moveTargets ys := by
  induction xs with
  | nil => rfl
  | cons x xs ih => cases x <;> simp [moveTargets, ih]

theorem moveTargets_replicate_delay (n ms : Nat) :
    moveTargets (List.replicate n (Event.vTaskDelay ms)) = [] := by
  induction n with
  | zero => rfl
  | succ n ih => simp [List.replicate_succ, moveTargets, ih]

/-- With a stepper present, the `moveTo` calls of a tick are those of the bounds
section, taken on the freshly computed target, and the tick stores that target. -/
theorem moveStepper_moves (c : Consts) (r : StepperReads) (s : State) (hst : s.stepper = true) :
    moveTargets (moveStepper c r s).2
      = moveTargets (boundedMove r
          { s with ss2k := { s.ss2k with
              stepperIsRunning := r.isRunning, currentPosition := r.posAtEntry,
              targetPosition := computeTargetPosition s } }) ∧
    (moveStepper c r s).1.ss2k.targetPosition = computeTargetPosition s := by
  constructor
  · simp only [moveStepper, hst, if_true, moveTargets_append]
    have h1 : ∀ b : Bool, ∀ p : Int, moveTargets (if b = true then
        [Event.stopMove, Event.vTaskDelay 100, Event.setCurrentPosition p, Event.vTaskDelay 100]
        else []) = [] := by
      intro b p; cases b <;> rfl
    have h2 : moveTargets (if r.clientCount > 0 then
        [Event.setAutoEnable false, Event.enableOutputs] else [Event.setAutoEnable true]) = [] := by
      split_ifs <;> rfl
    have h3 : moveTargets (if r.dirAtEntry ≠ r.dirAtExit then
        List.replicate r.runningPolls (Event.vTaskDelay 100) ++
          [Event.setDirectionPin c.dirPin r.dirApplied] else []) = [] := by
      split_ifs
      · rw [moveTargets_append, moveTargets_replicate_delay]; rfl
      · rfl
    rw [h1, h2, h3]
    simp only [List.nil_append, List.append_nil]
    rfl
  · simp only [moveStepper, hst, if_true]
    rfl

/-- C6.  With a stepper present, the aux link not connected and
`minStep <= maxStep`, a tick of `moveStepper` issues exactly one `moveTo`, at the
tick's target position clamped to `[minStep, maxStep]`; that position lies inside
`[minStep, maxStep]`. -/
theorem moveStepper_unconnected_clamp (c : Consts) (r : StepperReads) (s : State)
    (hst : s.stepper = true) (hconn : s.ss2k.pelotonIsConnected = false)
    (hbounds : s.rtConfig.minStep ≤ s.rtConfig.maxStep) :
    moveTargets (moveStepper c r s).2
      = [max s.rtConfig.minStep (min s.rtConfig.maxStep (moveStepper c r s).1.ss2k.targetPosition)] ∧
    s.rtConfig.minStep
      ≤ max s.rtConfig.minStep (min s.rtConfig.maxStep (moveStepper c r s).1.ss2k.targetPosition) ∧
    max s.rtConfig.minStep (min s.rtConfig.maxStep (moveStepper c r s).1.ss2k.targetPosition)
      ≤ s.rtConfig.maxStep := by
  obtain ⟨hm, ht⟩ := moveStepper_moves c r s hst
  rw [hm, ht]
  refine ⟨?_, le_max_left _ _, max_le hbounds (min_le_left _ _)⟩
  simp only [boundedMove, hconn, Bool.false_eq_true, if_false]
  split_ifs <;> simp [moveTargets] <;> omega

/-- C6, witness: not connected, limits `[-100, 100]`, target 250: the one
`moveTo` goes to 100. -/
theorem moveStepper_unconnected_clamp_witness :
    moveTargets (moveStepper sampleConsts (restingReads 0) (boundsState 250 0 false)).2
      = [max (-100) (min 100 250)] :=
  (moveStepper_unconnected_clamp sampleConsts (restingReads 0) (boundsState 250 0 false)
    rfl rfl (by decide)).1

/-- C7, as amended.  With a stepper present and the aux link connected (the
bounds need not be ordered): when `resistance.value` equals `minResistance`, a
tick whose target is not above the actuator position issues no `moveTo` at all,
and a tick whose target is above the actuator position issues exactly one
`moveTo`, at the target; the 20 unit nudge `moveTo (position + 20)` is issued, in
place of a target not above the actuator position, when `resistance.value` is
strictly below `minResistance`. -/
theorem moveStepper_at_min_resistance (c : Consts) (r : StepperReads) (s : State)
    (hst : s.stepper = true) (hconn : s.ss2k.pelotonIsConnected = true) :
    (s.rtConfig.resistance.value = s.rtConfig.minResistance →
      (moveStepper c r s).1.ss2k.targetPosition ≤ r.posShiftOut →
      moveTargets (moveStepper c r s).2 = []) ∧
    (s.rtConfig.resistance.value = s.rtConfig.minResistance →
      (moveStepper c r s).1.ss2k.targetPosition > r.posShiftOut →
      moveTargets (moveStepper c r s).2 = [(moveStepper c r s).1.ss2k.targetPosition]) ∧
    (s.rtConfig.resistance.value < s.rtConfig.minResistance →
      (moveStepper c r s).1.ss2k.targetPosition ≤ r.posShiftOut →
      moveTargets (moveStepper c r s).2 = [r.posNudge + 20]) := by
  obtain ⟨hm, ht⟩ := moveStepper_moves c r s hst
  rw [hm, ht]
  simp only [boundedMove, hconn, if_true]
  refine ⟨?_, ?_, ?_⟩
  · intro hv hp
    split_ifs <;> first | rfl | omega
  · intro hv hp
    split_ifs <;> first | rfl | omega
  · intro hv hp
    split_ifs <;> first | rfl | omega

/-- C7, witness: resistance value at the lower bound -50, actuator at 10: a
target of 0 gives no `moveTo`, a target of 40 gives `moveTo 40`; resistance value
-51 and target 0 give `moveTo 30`. -/
theorem moveStepper_at_min_resistance_witness :
    moveTargets (moveStepper sampleConsts (restingReads 10) (boundsState 0 (-50) true)).2 = [] ∧
    moveTargets (moveStepper sampleConsts (restingReads 10) (boundsState 40 (-50) true)).2
      = [(moveStepper sampleConsts (restingReads 10) (boundsState 40 (-50) true)).1.ss2k.targetPosition] ∧
    moveTargets (moveStepper sampleConsts (restingReads 10) (boundsState 0 (-51) true)).2
      = [(restingReads 10).posNudge + 20] :=
  ⟨(moveStepper_at_min_resistance sampleConsts (restingReads 10) (boundsState 0 (-50) true)
      rfl rfl).1 rfl (by decide),
   (moveStepper_at_min_resistance sampleConsts (restingReads 10) (boundsState 40 (-50) true)
      rfl rfl).2.1 rfl (by decide),
   (moveStepper_at_min_resistance sampleConsts (restingReads 10) (boundsState 0 (-51) true)
      rfl rfl).2.2 (by decide) (by decide)⟩

/-- C7, counterexample: aux link connected, resistance value equal to
`minResistance = -50 < 50 = maxResistance`, actuator at 10 and target 0 (not above
the actuator position): the tick issues no `moveTo`, so it does not command the
nudge to 10 + 20 = 30. -/
theorem moveStepper_at_min_resistance_no_nudge :
    (boundsState 0 (-50) true).ss2k.pelotonIsConnected = true ∧
    (boundsState 0 (-50) true).rtConfig.resistance.value
      = (boundsState 0 (-50) true).rtConfig.minResistance ∧
    (boundsState 0 (-50) true).rtConfig.minResistance
      < (boundsState 0 (-50) true).rtConfig.maxResistance ∧
    (moveStepper sampleConsts (restingReads 10) (boundsState 0 (-50) true)).1.ss2k.targetPosition
      ≤ (restingReads 10).posShiftOut ∧
    moveTargets (moveStepper sampleConsts (restingReads 10) (boundsState 0 (-50) true)).2 = [] ∧
    ¬ (10 + 20 ∈ moveTargets (moveStepper sampleConsts (restingReads 10) (boundsState 0 (-50) true)).2) := by
  decide

/-! ## Aux link: polling and liveness -/

/-- One poll round from an armed state: three calls of `txSerial` bring the
round-robin index back to the power request, lower the counter by one and change
nothing else; with transmit room the three requests are written in order. -/
theorem txSerialRun_round (c : Consts) (avail : Nat → Nat) (s : State)
    (htx : c.PELOTON_TX = true) (halt : s.ss2k.alternate = 0) (hk : 1 ≤ s.ss2k.txCheck) :
    (txSerialRun c avail 3 s).1
      = { s with ss2k := { s.ss2k with txCheck := s.ss2k.txCheck - 1 } } ∧
    ((∀ k, c.PELOTON_RQ_SIZE ≤ avail k) → (txSerialRun c avail 3 s).2 = pollRound c) := by
  obtain ⟨rt, uc, ss, bl, st, pr⟩ := s
  obtain ⟨tp, cp, sr, ec, sm, pc, ls, tc, ld, dd, al, ot⟩ := ss
  simp only at halt hk
  subst halt
  have h1 : (1 : Int) ≤ tc := hk
  constructor
  · simp [txSerialRun, txSerial, htx, h1]
  · intro ha
    simp [txSerialRun, txSerial, htx, h1, ha, pollRound]

/-- A run of `a + b` calls is a run of `a` calls followed by a run of `b` calls. -/
theorem txSerialRun_add (c : Consts) (a b : Nat) :
    ∀ (avail : Nat → Nat) (s : State),
      txSerialRun c avail (a + b) s
        = ((txSerialRun c (fun k => avail (k + a)) b (txSerialRun c avail a s).1).1,
            (txSerialRun c avail a s).2
              ++ (txSerialRun c (fun k => avail (k + a)) b (txSerialRun c avail a s).1).2) := by
  induction a with
  | zero => intro avail s; simp [txSerialRun]
  | succ a ih =>
    intro avail s
    have e : a + 1 + b = (a + b) + 1 := by omega
    rw [e]
    simp only [txSerialRun]
    rw [ih]
    simp only [List.append_assoc]
    have e2 : (fun k => avail (k + (a + 1))) = (fun k => avail (k + a + 1)) := by
      funext k; rfl
    rw [e2]

/-- From an armed state with the counter at `m`, `m` poll rounds (`3 * m` calls)
bring the counter to 0 and change nothing else; with transmit room they write `m`
rounds of requests. -/
theorem txSerialRun_rounds (c : Consts) (htx : c.PELOTON_TX = true) (m : Nat) :
    ∀ (avail : Nat → Nat) (s : State), s.ss2k.alternate = 0 → s.ss2k.txCheck = (m : Int) →
      (txSerialRun c avail (3 * m) s).1 = { s with ss2k := { s.ss2k with txCheck := 0 } } ∧
      ((∀ k, c.PELOTON_RQ_SIZE ≤ avail k) → (txSerialRun c avail (3 * m) s).2 = pollRounds c m) := by
  induction m with
  | zero =>
    intro avail s _ hk
    refine ⟨?_, fun _ => rfl⟩
    obtain ⟨rt, uc, ss, bl, st, pr⟩ := s
    obtain ⟨tp, cp, sr, ec, sm, pc, ls, tc, ld, dd, al, ot⟩ := ss
    simp only [Nat.cast_zero] at hk
    subst hk
    rfl
  | succ m ih =>
    intro avail s halt hk
    have e : 3 * (m + 1) = 3 + 3 * m := by omega
    have hk1 : 1 ≤ s.ss2k.txCheck := by rw [hk]; push_cast; omega
    obtain ⟨r1, r2⟩ := txSerialRun_round c avail s htx halt hk1
    rw [e, txSerialRun_add, r1]
    obtain ⟨i1, i2⟩ := ih (fun k => avail (k + 3))
      { s with ss2k := { s.ss2k with txCheck := s.ss2k.txCheck - 1 } } halt
      (by simp only [hk]; push_cast; omega)
    constructor
    · simp only [i1]
    · intro ha
      simp only [r2 ha, i2 (fun k => ha (k + 3)), pollRounds]

/-- The call of `txSerial` that finds the counter at 0 enters the hold-off. -/
theorem txSerial_enters_holdoff (c : Consts) (a : Nat) (s : State)
    (htx : c.PELOTON_TX = true) (hk : s.ss2k.txCheck = 0) :
    (txSerial c a s).1.ss2k.pelotonIsConnected = false ∧
    (txSerial c a s).1.rtConfig.minResistance = -c.DEFAULT_RESISTANCE_RANGE ∧
    (txSerial c a s).1.rtConfig.maxResistance = c.DEFAULT_RESISTANCE_RANGE ∧
    (txSerial c a s).1.ss2k.txCheck = -c.TX_CHECK_INTERVAL + 1 := by
  simp [txSerial, htx, hk]

/-- C8, as amended.  Start armed: `PELOTON_TX` on, counter at
`TX_CHECK_INTERVAL = N >= 1`, round-robin index at the power request, link
connected; no reception.  After `N` completed poll rounds, that is `3 * N` calls
of `txSerial` (with transmit room each round writes the power, cadence and
resistance request in that order), the counter is 0, the link is still marked
connected and the resistance bounds are unchanged.  The next call, number
`3 * N + 1`, enters the hold-off: `pelotonIsConnected` is false and the bounds are
`[-DEFAULT_RESISTANCE_RANGE, DEFAULT_RESISTANCE_RANGE]`. -/
theorem txSerialRun_holdoff (c : Consts) (avail : Nat → Nat) (s : State)
    (htx : c.PELOTON_TX = true) (hN : 1 ≤ c.TX_CHECK_INTERVAL)
    (hstart : s.ss2k.txCheck = c.TX_CHECK_INTERVAL) (halt : s.ss2k.alternate = 0)
    (hconn : s.ss2k.pelotonIsConnected = true) :
    (txSerialRun c avail (3 * c.TX_CHECK_INTERVAL.toNat) s).1.ss2k.txCheck = 0 ∧
    (txSerialRun c avail (3 * c.TX_CHECK_INTERVAL.toNat) s).1.ss2k.pelotonIsConnected = true ∧
    (txSerialRun c avail (3 * c.TX_CHECK_INTERVAL.toNat) s).1.rtConfig = s.rtConfig ∧
    ((∀ k, c.PELOTON_RQ_SIZE ≤ avail k) →
      (txSerialRun c avail (3 * c.TX_CHECK_INTERVAL.toNat) s).2
        = pollRounds c c.TX_CHECK_INTERVAL.toNat) ∧
    (txSerialRun c avail (3 * c.TX_CHECK_INTERVAL.toNat + 1) s).1.ss2k.pelotonIsConnected = false ∧
    (txSerialRun c avail (3 * c.TX_CHECK_INTERVAL.toNat + 1) s).1.rtConfig.minResistance
      = -c.DEFAULT_RESISTANCE_RANGE ∧
    (txSerialRun c avail (3 * c.TX_CHECK_INTERVAL.toNat + 1) s).1.rtConfig.maxResistance
      = c.DEFAULT_RESISTANCE_RANGE := by
  have hk : s.ss2k.txCheck = ((c.TX_CHECK_INTERVAL.toNat : Nat) : Int) := by
    rw [hstart, Int.toNat_of_nonneg (by omega)]
  obtain ⟨r1, r2⟩ := txSerialRun_rounds c htx c.TX_CHECK_INTERVAL.toNat avail s halt hk
  have h0 : ({ s with ss2k := { s.ss2k with txCheck := 0 } } : State).ss2k.txCheck = 0 := rfl
  obtain ⟨f1, f2, f3, _⟩ :=
    txSerial_enters_holdoff c (avail (0 + 3 * c.TX_CHECK_INTERVAL.toNat))
      { s with ss2k := { s.ss2k with txCheck := 0 } } htx h0
  rw [txSerialRun_add, r1]
  refine ⟨rfl, hconn, rfl, r2, ?_, ?_, ?_⟩
  · simpa [txSerialRun] using f1
  · simpa [txSerialRun] using f2
  · simpa [txSerialRun] using f3

/-- C8, witness: with `TX_CHECK_INTERVAL = 2`, six calls leave the counter at 0
and the link connected; the seventh call enters the hold-off. -/
theorem txSerialRun_holdoff_witness :
    (txSerialRun sampleConsts (fun _ => 4) (3 * sampleConsts.TX_CHECK_INTERVAL.toNat)
        armedState).1.ss2k.txCheck = 0 ∧
    (txSerialRun sampleConsts (fun _ => 4) (3 * sampleConsts.TX_CHECK_INTERVAL.toNat + 1)
        armedState).1.ss2k.pelotonIsConnected = false :=
  ⟨(txSerialRun_holdoff sampleConsts (fun _ => 4) armedState rfl (by decide) rfl rfl rfl).1,
   (txSerialRun_holdoff sampleConsts (fun _ => 4) armedState rfl (by decide) rfl rfl rfl).2.2.2.2.1⟩

/-- C8, counterexample: armed with `TX_CHECK_INTERVAL = 2`, link connected, bounds
`[0, 100]`; after `3 * 2 = 6` calls of `txSerial` without reception the link is
still marked connected and the bounds are still `[0, 100]`, not
`[-50, 50] = [-DEFAULT_RESISTANCE_RANGE, DEFAULT_RESISTANCE_RANGE]`. -/
theorem txSerialRun_not_yet_holdoff :
    sampleConsts.TX_CHECK_INTERVAL = 2 ∧
    armedState.ss2k.txCheck = sampleConsts.TX_CHECK_INTERVAL ∧
    armedState.ss2k.alternate = 0 ∧
    armedState.ss2k.pelotonIsConnected = true ∧
    (txSerialRun sampleConsts (fun _ => 4) 6 armedState).1.ss2k.pelotonIsConnected = true ∧
    (txSerialRun sampleConsts (fun _ => 4) 6 armedState).1.rtConfig.minResistance = 0 ∧
    (txSerialRun sampleConsts (fun _ => 4) 6 armedState).1.rtConfig.maxResistance = 100 ∧
    sampleConsts.DEFAULT_RESISTANCE_RANGE = 50 := by
  decide

/-! ## Aux link: reception -/

theorem jorotoBlock_ss2k (env : Env) (s : State) : (jorotoBlock env s).ss2k = s.ss2k := by
  unfold jorotoBlock
  simp only
  split_ifs <;> rfl

/-- The function `collectAndSet` does not write the fields of `ss2k`. -/
theorem collectAndSet_ss2k (c : Consts) (env : Env) (u v a : Nat) (d : List Nat) (s : State) :
    (collectAndSet c env u v a d s).ss2k = s.ss2k := by
  have e1 : ∀ (sd : SensorData) (t : State), (fuseHeartRate sd t).ss2k = t.ss2k := by
    intro sd t; unfold fuseHeartRate; split_ifs <;> rfl
  have e2 : ∀ (sd : SensorData) (t : State), (fuseCadence c u sd t).ss2k = t.ss2k := by
    intro sd t; unfold fuseCadence; split_ifs <;> rfl
  have e3 : ∀ (sd : SensorData) (t : State), (fusePower c env u sd t).ss2k = t.ss2k := by
    intro sd t; unfold fusePower; split_ifs <;> first | rfl | exact jorotoBlock_ss2k env t
  have e4 : ∀ (sd : SensorData) (t : State), (fuseSpeed sd t).ss2k = t.ss2k := by
    intro sd t; unfold fuseSpeed; split_ifs <;> rfl
  have e5 : ∀ (sd : SensorData) (t : State), (fuseResistance c u sd t).ss2k = t.ss2k := by
    intro sd t; unfold fuseResistance; split_ifs <;> rfl
  simp only [collectAndSet, e1, e2, e3, e4, e5]

/-- The header scan keeps the liveness counter; it marks the link connected when
the scanned bytes contain a header byte and keeps the flag otherwise. -/
theorem rxScan_ss2k (c : Consts) (env : Env) (data : List Nat) :
    ∀ s : State,
      (rxScan c env data s).ss2k.txCheck = s.ss2k.txCheck ∧
      (c.PELOTON_HEADER ∈ data → (rxScan c env data s).ss2k.pelotonIsConnected = true) ∧
      (c.PELOTON_HEADER ∉ data →
        (rxScan c env data s).ss2k.pelotonIsConnected = s.ss2k.pelotonIsConnected) ∧
      (s.ss2k.pelotonIsConnected = true → (rxScan c env data s).ss2k.pelotonIsConnected = true) := by
  induction data with
  | nil => intro s; simp [rxScan]
  | cons b rest ih =>
    intro s
    by_cases hb : b = c.PELOTON_HEADER
    · have hc : (collectAndSet c env c.PELOTON_DATA_UUID c.PELOTON_DATA_UUID c.PELOTON_ADDRESS
          (b :: rest) { s with ss2k := { s.ss2k with pelotonIsConnected := true } }).ss2k
          = { s.ss2k with pelotonIsConnected := true } := collectAndSet_ss2k _ _ _ _ _ _ _
      have htx := congrArg SS2KFields.txCheck hc
      have hcn := congrArg SS2KFields.pelotonIsConnected hc
      obtain ⟨i1, _, _, i4⟩ := ih
        (collectAndSet c env c.PELOTON_DATA_UUID c.PELOTON_DATA_UUID c.PELOTON_ADDRESS (b :: rest)
          { s with ss2k := { s.ss2k with pelotonIsConnected := true } })
      have hstep : rxScan c env (b :: rest) s = rxScan c env rest
          (collectAndSet c env c.PELOTON_DATA_UUID c.PELOTON_DATA_UUID c.PELOTON_ADDRESS (b :: rest)
            { s with ss2k := { s.ss2k with pelotonIsConnected := true } }) := by
        simp only [rxScan, hb, if_true]
      rw [hstep]
      refine ⟨i1.trans htx, fun _ => i4 hcn, ?_, fun _ => i4 hcn⟩
      intro hn
      exact absurd (hb ▸ List.mem_cons_self _ _) hn
    · obtain ⟨i1, i2, i3, i4⟩ := ih s
      simp only [rxScan, hb, if_false]
      refine ⟨i1, ?_, ?_, i4⟩
      · intro hm
        rcases List.mem_cons.mp hm with h | h
        · exact absurd h.symm hb
        · exact i2 h
      · intro hn
        exact i3 (fun h => hn (List.mem_cons_of_mem _ h))

theorem pelotonConnected_ss2k (c : Consts) (s : State) :
    (pelotonConnected c s).ss2k.txCheck = c.TX_CHECK_INTERVAL ∧
    (pelotonConnected c s).ss2k.pelotonIsConnected = s.ss2k.pelotonIsConnected := by
  unfold pelotonConnected
  simp only
  split_ifs <;> exact ⟨rfl, rfl⟩

/-- What `rxSerial` does to the liveness fields, for any number of passes. -/
theorem rxSerial_ss2k (c : Consts) (env : Env) (chunks : List (List Nat)) :
    ∀ s : State,
      (chunks ≠ [] → (rxSerial c env chunks s).ss2k.txCheck = c.TX_CHECK_INTERVAL) ∧
      (chunks = [] → (rxSerial c env chunks s).ss2k.txCheck = s.ss2k.txCheck) ∧
      ((∃ data ∈ chunks, c.PELOTON_HEADER ∈ data) →
        (rxSerial c env chunks s).ss2k.pelotonIsConnected = true) ∧
      ((∀ data ∈ chunks, c.PELOTON_HEADER ∉ data) →
        (rxSerial c env chunks s).ss2k.pelotonIsConnected = s.ss2k.pelotonIsConnected) ∧
      (s.ss2k.pelotonIsConnected = true →
        (rxSerial c env chunks s).ss2k.pelotonIsConnected = true) := by
  induction chunks with
  | nil => intro s; simp [rxSerial]
  | cons data more ih =>
    intro s
    obtain ⟨p1, p2⟩ := pelotonConnected_ss2k c s
    obtain ⟨s1, s2, s3, s4⟩ := rxScan_ss2k c env data (pelotonConnected c s)
    obtain ⟨i1, i2, i3, i4, i5⟩ := ih (rxScan c env data (pelotonConnected c s))
    simp only [rxSerial]
    refine ⟨?_, ?_, ?_, ?_, ?_⟩
    · intro _
      by_cases hm : more = []
      · rw [i2 hm, s1, p1]
      · exact i1 hm
    · intro h; exact absurd h (List.cons_ne_nil _ _)
    · rintro ⟨d, hd, hh⟩
      rcases List.mem_cons.mp hd with h | h
      · subst h
        exact i5 (s2 hh)
      · exact i3 ⟨d, h, hh⟩
    · intro hall
      rw [i4 (fun d hd => hall d (List.mem_cons_of_mem _ hd)),
        s3 (hall data (List.mem_cons_self _ _)), p2]
    · intro hc
      exact i5 (s4 (by rw [p2]; exact hc))

/-- C9, as amended.  A reception (`rxSerial` with at least one pass of its read
loop), whatever the liveness counter was before, leaves the counter at
`+TX_CHECK_INTERVAL`.  It marks the link connected when some pass read a header
byte; when no pass read a header byte `pelotonIsConnected` keeps the value it had
before. -/
theorem rxSerial_rearms (c : Consts) (env : Env) (chunks : List (List Nat)) (s : State)
    (hrx : chunks ≠ []) :
    (rxSerial c env chunks s).ss2k.txCheck = c.TX_CHECK_INTERVAL ∧
    ((∃ data ∈ chunks, c.PELOTON_HEADER ∈ data) →
      (rxSerial c env chunks s).ss2k.pelotonIsConnected = true) ∧
    ((∀ data ∈ chunks, c.PELOTON_HEADER ∉ data) →
      (rxSerial c env chunks s).ss2k.pelotonIsConnected = s.ss2k.pelotonIsConnected) := by
  obtain ⟨h1, _, h3, h4, _⟩ := rxSerial_ss2k c env chunks s
  exact ⟨h1 hrx, h3, h4⟩

/-- C9, witness: from the hold-off, the bytes `F1 44 00` (a header byte first)
re-arm the counter to 2 and mark the link connected. -/
theorem rxSerial_rearms_witness :
    (rxSerial sampleConsts (sampleEnv emptySensorData) [[0xF1, 0x44, 0x00]]
        holdoffState).ss2k.txCheck = sampleConsts.TX_CHECK_INTERVAL ∧
    (rxSerial sampleConsts (sampleEnv emptySensorData) [[0xF1, 0x44, 0x00]]
        holdoffState).ss2k.pelotonIsConnected = true :=
  ⟨(rxSerial_rearms sampleConsts (sampleEnv emptySensorData) [[0xF1, 0x44, 0x00]] holdoffState
      (by decide)).1,
   (rxSerial_rearms sampleConsts (sampleEnv emptySensorData) [[0xF1, 0x44, 0x00]] holdoffState
      (by decide)).2.1 ⟨[0xF1, 0x44, 0x00], by decide, by decide⟩⟩

/-- C9, counterexample: in the hold-off (counter -1, link not connected) one
byte `0x44`, which is not the header byte `0xF1`, is received: the counter is
re-armed to `TX_CHECK_INTERVAL = 2`, but the link is still not marked
connected. -/
theorem rxSerial_no_header_not_connected :
    holdoffState.ss2k.txCheck = -1 ∧
    (rxSerial sampleConsts (sampleEnv emptySensorData) [[0x44]] holdoffState).ss2k.txCheck = 2 ∧
    (rxSerial sampleConsts (sampleEnv emptySensorData) [[0x44]]
        holdoffState).ss2k.pelotonIsConnected = false := by
  decide

/-! ## Thermal guard -/

/-- Over the threshold, `checkDriverTemperature` hands the driver the `uint8_t`
value of `(THROTTLE_TEMP - t) + pwrScaler`.  While `t` is at most
`THROTTLE_TEMP + pwrScaler` (and `pwrScaler` is an 8-bit value) this is
`max 0 ((THROTTLE_TEMP - t) + pwrScaler)`, which is at most `pwrScaler`. -/
theorem checkDriverTemperature_throttle (c : Consts) (t : Int) (s : State)
    (ht : c.THROTTLE_TEMP < t) :
    irunValues (checkDriverTemperature c t t t s).2
      = [((c.THROTTLE_TEMP - t) + c.pwrScaler) % 256] ∧
    (0 ≤ c.pwrScaler → c.pwrScaler < 256 → t ≤ c.THROTTLE_TEMP + c.pwrScaler →
      ((c.THROTTLE_TEMP - t) + c.pwrScaler) % 256 = max 0 ((c.THROTTLE_TEMP - t) + c.pwrScaler) ∧
      ((c.THROTTLE_TEMP - t) + c.pwrScaler) % 256 ≤ c.pwrScaler) := by
  constructor
  · simp [checkDriverTemperature, ht, irunValues]
  · intro h0 h1 h2
    have e : ((c.THROTTLE_TEMP - t) + c.pwrScaler) % 256 = (c.THROTTLE_TEMP - t) + c.pwrScaler :=
      Int.emod_eq_of_lt (by omega) (by omega)
    rw [e]
    exact ⟨(max_eq_right (by omega)).symm, by omega⟩

/-- C10, the code at the failing input: `THROTTLE_TEMP = 72`, `pwrScaler = 31`
and a reading of 104 give `(72 - 104) + 31 = -1`, whose `uint8_t` value 255 is what
`checkDriverTemperature` passes to `driver.irun`; the claimed value is
`max 0 (-1) = 0`, and 255 exceeds `pwrScaler`. -/
theorem checkDriverTemperature_wraps :
    sampleConsts.THROTTLE_TEMP < 104 ∧
    irunValues (checkDriverTemperature sampleConsts 104 104 104 sampleState).2 = [255] ∧
    max 0 ((sampleConsts.THROTTLE_TEMP - 104) + sampleConsts.pwrScaler) = 0 ∧
    sampleConsts.pwrScaler < 255 := by
  decide

/-! ## Derived power -/

theorem truncToInt_intCast (n : Int) : truncToInt (n : ℚ) = n := by
  unfold truncToInt
  split_ifs <;> simp

/-- The potentiometer block, when the reading is neither 0 nor 4095, writes a
power that is not negative, and 0 when the cadence is below 15 (given
`pow(0, 1.5) = 0`). -/
theorem jorotoBlock_watts (env : Env) (s : State)
    (h0 : Int.tdiv (env.analogRead s.potReads + env.analogRead (s.potReads + 1)) 2 ≠ 0)
    (h1 : Int.tdiv (env.analogRead s.potReads + env.analogRead (s.potReads + 1)) 2 ≠ 4095) :
    0 ≤ (jorotoBlock env s).rtConfig.watts.value ∧
    (env.pow 0 (3 / 2) = 0 → s.rtConfig.cad.value < 15 →
      (jorotoBlock env s).rtConfig.watts.value = 0) := by
  unfold jorotoBlock
  simp only [if_neg h0, if_neg h1]
  constructor
  · split_ifs <;> omega
  · intro hp hc
    simp only [if_pos hc, Int.cast_zero, zero_div, hp, mul_zero, zero_mul, zero_add,
      truncToInt_intCast]
    split_ifs <;> first | rfl | omega | (exfalso; revert ‹_›; decide)

/-- The resistance percent the potentiometer block derives lies in 1..100. -/
theorem jorotoBlock_resistance (env : Env) (s : State)
    (h0 : Int.tdiv (env.analogRead s.potReads + env.analogRead (s.potReads + 1)) 2 ≠ 0)
    (h1 : Int.tdiv (env.analogRead s.potReads + env.analogRead (s.potReads + 1)) 2 ≠ 4095) :
    1 ≤ (jorotoBlock env s).rtConfig.resistance.value ∧
    (jorotoBlock env s).rtConfig.resistance.value ≤ 100 := by
  unfold jorotoBlock
  simp only [if_neg h0, if_neg h1]
  split_ifs with ha hb
  · exact ⟨le_refl _, by decide⟩
  · exact ⟨by decide, le_refl _⟩
  · have hnn : (0 : Int) ≤
        Int.tdiv (env.analogRead s.potReads + env.analogRead (s.potReads + 1)) 2 := by omega
    rw [Int.tdiv_eq_ediv hnn (by decide)]
    constructor <;> omega

theorem fuseStages_before_power (c : Consts) (u : Nat) (sd : SensorData) (s : State) :
    (fuseCadence c u sd (fuseHeartRate sd s)).userConfig = s.userConfig ∧
    (fuseCadence c u sd (fuseHeartRate sd s)).potReads = s.potReads ∧
    (fuseCadence c u sd (fuseHeartRate sd s)).rtConfig.watts = s.rtConfig.watts := by
  unfold fuseCadence fuseHeartRate
  split_ifs <;> exact ⟨rfl, rfl, rfl⟩

/-- C11.  When `collectAndSet` runs the potentiometer block (the payload carries
power, power is not simulated, the source is not a skipped aux link, and the
averaged reading is neither 0 nor 4095, so that the resistance percent is one of
1..100), the power it leaves in `watts.value` is not negative, and it is 0
whenever the cadence is below 15 (the library `pow` returning 0 at base 0). -/
theorem collectAndSet_derived_power (c : Consts) (env : Env)
    (charUUID serviceUUID address : Nat) (pData : List Nat) (s : State)
    (hp : (env.getSensorData charUUID address pData).hasPower = true)
    (hsim : s.rtConfig.watts.simulate = false)
    (hskip : skipPelotonMetric c charUUID s = false)
    (h0 : Int.tdiv (env.analogRead s.potReads + env.analogRead (s.potReads + 1)) 2 ≠ 0)
    (h1 : Int.tdiv (env.analogRead s.potReads + env.analogRead (s.potReads + 1)) 2 ≠ 4095) :
    0 ≤ (collectAndSet c env charUUID serviceUUID address pData s).rtConfig.watts.value ∧
    (env.pow 0 (3 / 2) = 0 →
      (collectAndSet c env charUUID serviceUUID address pData s).rtConfig.cad.value < 15 →
      (collectAndSet c env charUUID serviceUUID address pData s).rtConfig.watts.value = 0) := by
  obtain ⟨e1, e2, e3⟩ :=
    fuseStages_before_power c charUUID (env.getSensorData charUUID address pData) s
  have hskip2 : skipPelotonMetric c charUUID
      (fuseCadence c charUUID (env.getSensorData charUUID address pData)
        (fuseHeartRate (env.getSensorData charUUID address pData) s)) = false := by
    simpa [skipPelotonMetric, e1] using hskip
  have hfp : fusePower c env charUUID (env.getSensorData charUUID address pData)
      (fuseCadence c charUUID (env.getSensorData charUUID address pData)
        (fuseHeartRate (env.getSensorData charUUID address pData) s))
      = jorotoBlock env (fuseCadence c charUUID (env.getSensorData charUUID address pData)
        (fuseHeartRate (env.getSensorData charUUID address pData) s)) := by
    simp [fusePower, hp, e3, hsim, hskip2]
  obtain ⟨w1, w2⟩ := jorotoBlock_watts env
    (fuseCadence c charUUID (env.getSensorData charUUID address pData)
      (fuseHeartRate (env.getSensorData charUUID address pData) s))
    (by rw [e2]; exact h0) (by rw [e2]; exact h1)
  simp only [collectAndSet]
  rw [(fuseResistance_frame _ _ _ _).2.2, (fuseSpeed_frame _ _).2.2.1,
    (fuseResistance_frame _ _ _ _).2.1, (fuseSpeed_frame _ _).2.1, hfp, jorotoBlock_cad]
  exact ⟨w1, w2⟩

/-- C11, witness: a reading of 125 (resistance 5 percent) with cadence 10, and a
reading of 30 (resistance 1 percent) with cadence 0, both replace the power value
77 by 0. -/
theorem collectAndSet_derived_power_witness :
    (collectAndSet sampleConsts (potEnv powerSensorData 125) 7 7 0 []
        (cadenceState 10)).rtConfig.watts.value = 0 ∧
    (collectAndSet sampleConsts (potEnv powerSensorData 30) 7 7 0 []
        (cadenceState 0)).rtConfig.watts.value = 0 :=
  ⟨(collectAndSet_derived_power sampleConsts (potEnv powerSensorData 125) 7 7 0 []
      (cadenceState 10) rfl rfl (by decide) (by decide) (by decide)).2 rfl (by decide),
   (collectAndSet_derived_power sampleConsts (potEnv powerSensorData 30) 7 7 0 []
      (cadenceState 0) rfl rfl (by decide) (by decide) (by decide)).2 rfl (by decide)⟩

/-! ## Shifter input: debounce -/

theorem emod_le_self (x m : Int) (hx : 0 ≤ x) (hm : 0 < m) : x % m ≤ x := by
  by_cases h : x < m
  · rw [Int.emod_eq_of_lt hx h]
  · have := Int.emod_lt_of_pos x hm
    omega

/-- An edge that passes `deBounce` and reads the active level moves
`shifterPosition` by one unit, stores the time of the edge and keeps the delay. -/
theorem shiftEdge_accepted (c : Consts) (upButton : Bool) (t : Nat) (s : State)
    (hacc : (deBounce c t t s).1 = true) :
    ((shiftEdge c upButton t t false s).rtConfig.shifterPosition
        = s.rtConfig.shifterPosition + 1 ∨
      (shiftEdge c upButton t t false s).rtConfig.shifterPosition
        = s.rtConfig.shifterPosition - 1) ∧
    (shiftEdge c upButton t t false s).ss2k.lastDebounceTime = t % 2 ^ c.timeBits ∧
    (shiftEdge c upButton t t false s).ss2k.debounceDelay = s.ss2k.debounceDelay := by
  have hd : (deBounce c t t s).2
      = { s with ss2k := { s.ss2k with lastDebounceTime := t % 2 ^ c.timeBits } } := by
    by_cases h : ((t : Int) - (s.ss2k.lastDebounceTime : Int)) % (2 ^ c.timeBits : Int)
        > (s.ss2k.debounceDelay : Int)
    · simp only [deBounce, if_pos h]
    · simp [deBounce, if_neg h] at hacc
  cases upButton <;> cases hdir : s.userConfig.shifterDir <;>
    simp [shiftEdge, shiftUp, shiftDown, hacc, hd, setShifterPosition, hdir] <;> omega

/-- An edge that `deBounce` rejects changes nothing. -/
theorem shiftEdge_rejected (c : Consts) (upButton : Bool) (t : Nat) (level : Bool) (s : State)
    (hrej : (deBounce c t t s).1 = false) : shiftEdge c upButton t t level s = s := by
  have hd : (deBounce c t t s).2 = s := by
    by_cases h : ((t : Int) - (s.ss2k.lastDebounceTime : Int)) % (2 ^ c.timeBits : Int)
        > (s.ss2k.debounceDelay : Int)
    · simp [deBounce, if_pos h] at hrej
    · simp only [deBounce, if_neg h]
  cases upButton <;> simp [shiftEdge, shiftUp, shiftDown, hrej, hd]

/-- C12.  Two button edges at times `t1 <= t2` with `t2 - t1 <= debounceDelay`
(either button each; both `millis()` reads of an edge return its time, and `t1`
fits the unsigned time type), the first accepted by `deBounce` and read at the
active level: `deBounce` rejects the second edge, which leaves the state, and so
`shifterPosition`, unchanged, whatever level it would read; the two edges together
move `shifterPosition` by exactly one unit. -/
theorem deBounce_second_edge_rejected (c : Consts) (s : State) (t1 t2 : Nat)
    (button1 button2 level2 : Bool)
    (horder : t1 ≤ t2) (hwindow : t2 - t1 ≤ s.ss2k.debounceDelay)
    (hfit : t1 < 2 ^ c.timeBits)
    (hacc : (deBounce c t1 t1 s).1 = true) :
    (deBounce c t2 t2 (shiftEdge c button1 t1 t1 false s)).1 = false ∧
    shiftEdge c button2 t2 t2 level2 (shiftEdge c button1 t1 t1 false s)
      = shiftEdge c button1 t1 t1 false s ∧
    ((shiftEdge c button2 t2 t2 level2
          (shiftEdge c button1 t1 t1 false s)).rtConfig.shifterPosition
        = s.rtConfig.shifterPosition + 1 ∨
      (shiftEdge c button2 t2 t2 level2
          (shiftEdge c button1 t1 t1 false s)).rtConfig.shifterPosition
        = s.rtConfig.shifterPosition - 1) := by
  obtain ⟨hpos, hlast, hdelay⟩ := shiftEdge_accepted c button1 t1 s hacc
  rw [Nat.mod_eq_of_lt hfit] at hlast
  have hrej : (deBounce c t2 t2 (shiftEdge c button1 t1 t1 false s)).1 = false := by
    have hm : (0 : Int) < 2 ^ c.timeBits := by positivity
    have hle := emod_le_self ((t2 : Int) - (t1 : Int)) (2 ^ c.timeBits) (by omega) hm
    unfold deBounce
    rw [hlast, hdelay]
    split_ifs with h
    · exfalso
      omega
    · rfl
  have hsame := shiftEdge_rejected c button2 t2 level2 _ hrej
  refine ⟨hrej, hsame, ?_⟩
  rw [hsame]
  exact hpos

/-- C12, witness: `debounceDelay = 50`, last accepted edge at time 0; a shift-up
edge at time 1000 is accepted, a second edge at time 1030 is rejected. -/
theorem deBounce_second_edge_rejected_witness :
    shiftEdge sampleConsts true 1030 1030 false (shiftEdge sampleConsts true 1000 1000 false sampleState)
      = shiftEdge sampleConsts true 1000 1000 false sampleState :=
  (deBounce_second_edge_rejected sampleConsts sampleState 1000 1030 true true false
    (by decide) (by decide) (by decide) (by decide)).2.1

/-! ## Aux link: poll frame -/

/-- With a stepper present and `syncMode` set, a tick starts with the hard sync
calls and does not write `syncMode`. -/
theorem moveStepper_sync_events (c : Consts) (r : StepperReads) (s : State)
    (hst : s.stepper = true) (hsync : s.ss2k.syncMode = true) :
    (∃ rest : List Event, (moveStepper c r s).2
      = [Event.stopMove, Event.vTaskDelay 100,
          Event.setCurrentPosition (moveStepper c r s).1.ss2k.targetPosition,
          Event.vTaskDelay 100] ++ rest) ∧
    (moveStepper c r s).1.ss2k.syncMode = true ∧
    (moveStepper c r s).1.stepper = true := by
  refine ⟨?_, ?_, ?_⟩
  · simp only [moveStepper, hst, if_true, hsync]
    exact ⟨_, by simp only [List.append_assoc]; rfl⟩
  · simp only [moveStepper, hst, if_true, hsync]
  · simp only [moveStepper, hst, if_true]

/-- C15, as amended.  With a stepper present and `syncMode` set, one tick of
`moveStepper` stops any motion and sets the actuator position to the target
(`stopMove`, a delay, `setCurrentPosition targetPosition`, a delay, before any
other stepper call); `moveStepper` does not write `syncMode`, which is still set
after the tick, and the following tick performs the hard sync again. -/
theorem moveStepper_hard_sync (c : Consts) (r1 r2 : StepperReads) (s : State)
    (hst : s.stepper = true) (hsync : s.ss2k.syncMode = true) :
    (∃ rest : List Event, (moveStepper c r1 s).2
      = [Event.stopMove, Event.vTaskDelay 100,
          Event.setCurrentPosition (moveStepper c r1 s).1.ss2k.targetPosition,
          Event.vTaskDelay 100] ++ rest) ∧
    (moveStepper c r1 s).1.ss2k.syncMode = true ∧
    (∃ rest : List Event, (moveStepper c r2 (moveStepper c r1 s).1).2
      = [Event.stopMove, Event.vTaskDelay 100,
          Event.setCurrentPosition (moveStepper c r2 (moveStepper c r1 s).1).1.ss2k.targetPosition,
          Event.vTaskDelay 100] ++ rest) := by
  obtain ⟨e1, e2, e3⟩ := moveStepper_sync_events c r1 s hst hsync
  exact ⟨e1, e2, (moveStepper_sync_events c r2 _ e3 e2).1⟩

/-- C15, witness: from the sample state with `syncMode` set, `syncMode` is still
set after a tick. -/
theorem moveStepper_hard_sync_witness :
    (moveStepper sampleConsts (restingReads 0) (syncState 40)).1.ss2k.syncMode = true :=
  (moveStepper_hard_sync sampleConsts (restingReads 0) (restingReads 0) (syncState 40)
    rfl rfl).2.1

/-- C15, counterexample: `syncMode` set, target 40 under external control,
actuator at 0.  The tick performs the hard sync to 40 and leaves `syncMode` set;
the following tick performs the hard sync again. -/
theorem moveStepper_sync_not_cleared :
    (syncState 40).ss2k.syncMode = true ∧
    (moveStepper sampleConsts (restingReads 0) (syncState 40)).1.ss2k.syncMode = true ∧
    (moveStepper sampleConsts (restingReads 40)
        (moveStepper sampleConsts (restingReads 0) (syncState 40)).1).2
      = [Event.stopMove, Event.vTaskDelay 100, Event.setCurrentPosition 40, Event.vTaskDelay 100,
          Event.moveTo 40, Event.setAutoEnable true] := by
  decide

/-! ## Aux link: leaving the hold-off -/

/-- A hold-off call (counter at most 0): the counter it leaves, no frame written,
link marked not connected, round-robin index untouched. -/
theorem txSerial_holdoff_call (c : Consts) (a : Nat) (s : State)
    (htx : c.PELOTON_TX = true) (hk : s.ss2k.txCheck ≤ 0) :
    (txSerial c a s).1.ss2k.txCheck
      = (if s.ss2k.txCheck = 0 then -c.TX_CHECK_INTERVAL
          else if s.ss2k.txCheck = -1 then 1 else s.ss2k.txCheck) + 1 ∧
    (txSerial c a s).2 = [] ∧
    (txSerial c a s).1.ss2k.pelotonIsConnected = false ∧
    (txSerial c a s).1.ss2k.alternate = s.ss2k.alternate := by
  have h1 : ¬ (s.ss2k.txCheck ≥ 1) := by omega
  simp [txSerial, htx, h1, hk]

/-- While the counter stays below 0, each hold-off call adds one to it. -/
theorem txSerialRun_holdoff_count (c : Consts) (htx : c.PELOTON_TX = true) (k : Nat) :
    ∀ (avail : Nat → Nat) (s : State), s.ss2k.txCheck + (k : Int) ≤ -1 →
      (txSerialRun c avail k s).1.ss2k.txCheck = s.ss2k.txCheck + (k : Int) ∧
      (txSerialRun c avail k s).2 = [] ∧
      (txSerialRun c avail k s).1.ss2k.alternate = s.ss2k.alternate := by
  induction k with
  | zero => intro avail s _; simp [txSerialRun]
  | succ k ih =>
    intro avail s hk
    have hk2 : s.ss2k.txCheck ≤ -2 := by push_cast at hk; omega
    obtain ⟨c1, c2, _, c4⟩ := txSerial_holdoff_call c (avail 0) s htx (by omega)
    rw [if_neg (by omega), if_neg (by omega)] at c1
    obtain ⟨i1, i2, i3⟩ := ih (fun j => avail (j + 1)) (txSerial c (avail 0) s).1
      (by rw [c1]; push_cast at hk; omega)
    simp only [txSerialRun]
    refine ⟨?_, ?_, ?_⟩
    · rw [i1, c1]; push_cast; omega
    · rw [c2, i2]; rfl
    · rw [i3, c4]

/-- C16, as amended.  For `N = TX_CHECK_INTERVAL >= 2`, `PELOTON_TX` on, starting
from counter 0 with no reception: the first call of `txSerial` leaves the counter
at `-N + 1`; after `k` calls, `1 <= k < N`, the counter is `-N + k` (each call adds
one); the call that finds the counter at -1 leaves it at 2, so after exactly `N`
calls the counter is 2 and no frame has been written; polling then resumes from 2:
with the round-robin index at the power request, the next three calls make one
poll round and lower the counter to 1. -/
theorem txSerialRun_leaves_holdoff (c : Consts) (avail : Nat → Nat) (s : State)
    (htx : c.PELOTON_TX = true) (hN : 2 ≤ c.TX_CHECK_INTERVAL) (hstart : s.ss2k.txCheck = 0) :
    (txSerialRun c avail 1 s).1.ss2k.txCheck = -c.TX_CHECK_INTERVAL + 1 ∧
    (∀ k : Nat, 1 ≤ k → k < c.TX_CHECK_INTERVAL.toNat →
      (txSerialRun c avail k s).1.ss2k.txCheck = -c.TX_CHECK_INTERVAL + (k : Int)) ∧
    (txSerialRun c avail c.TX_CHECK_INTERVAL.toNat s).1.ss2k.txCheck = 2 ∧
    (txSerialRun c avail c.TX_CHECK_INTERVAL.toNat s).2 = [] ∧
    (s.ss2k.alternate = 0 →
      (txSerialRun c avail (c.TX_CHECK_INTERVAL.toNat + 3) s).1.ss2k.txCheck = 1 ∧
      ((∀ k, c.PELOTON_RQ_SIZE ≤ avail k) →
        (txSerialRun c avail (c.TX_CHECK_INTERVAL.toNat + 3) s).2 = pollRound c)) := by
  have hn : ((c.TX_CHECK_INTERVAL.toNat : Nat) : Int) = c.TX_CHECK_INTERVAL :=
    Int.toNat_of_nonneg (by omega)
  -- the first call
  obtain ⟨f1, f2, _, f4⟩ := txSerial_holdoff_call c (avail 0) s htx (by omega)
  rw [if_pos hstart] at f1
  -- after `k` calls, `1 <= k < N`
  have hmid : ∀ k : Nat, 1 ≤ k → k < c.TX_CHECK_INTERVAL.toNat →
      (txSerialRun c avail k s).1.ss2k.txCheck = -c.TX_CHECK_INTERVAL + (k : Int) ∧
      (txSerialRun c avail k s).2 = [] ∧
      (txSerialRun c avail k s).1.ss2k.alternate = s.ss2k.alternate := by
    intro k hk1 hk2
    obtain ⟨j, rfl⟩ : ∃ j, k = j + 1 := ⟨k - 1, by omega⟩
    obtain ⟨i1, i2, i3⟩ := txSerialRun_holdoff_count c htx j (fun i => avail (i + 1))
      (txSerial c (avail 0) s).1 (by rw [f1]; omega)
    simp only [txSerialRun]
    refine ⟨?_, ?_, ?_⟩
    · rw [i1, f1]; push_cast; omega
    · rw [f2, i2]; rfl
    · rw [i3, f4]
  -- the call that finds -1
  obtain ⟨m, hm⟩ : ∃ m, c.TX_CHECK_INTERVAL.toNat = m + 1 :=
    ⟨c.TX_CHECK_INTERVAL.toNat - 1, by omega⟩
  obtain ⟨p1, p2, p3⟩ := hmid m (by omega) (by omega)
  have hminus : (txSerialRun c avail m s).1.ss2k.txCheck = -1 := by rw [p1]; omega
  obtain ⟨g1, g2, _, g4⟩ :=
    txSerial_holdoff_call c (avail (0 + m)) (txSerialRun c avail m s).1 htx (by omega)
  rw [if_neg (by omega), if_pos hminus] at g1
  have hlast : txSerialRun c avail (m + 1) s
      = ((txSerial c (avail (0 + m)) (txSerialRun c avail m s).1).1,
          (txSerialRun c avail m s).2 ++ (txSerial c (avail (0 + m)) (txSerialRun c avail m s).1).2) := by
    rw [txSerialRun_add]
    simp [txSerialRun]
  refine ⟨?_, fun k h1 h2 => (hmid k h1 h2).1, ?_, ?_, ?_⟩
  · simpa [txSerialRun] using f1
  · rw [hm, hlast]; simpa using g1
  · rw [hm, hlast, p2, g2]; rfl
  · intro halt
    have halt2 : (txSerialRun c avail (m + 1) s).1.ss2k.alternate = 0 := by
      rw [hlast]; simp only; rw [g4, p3, halt]
    have hk2 : (txSerialRun c avail (m + 1) s).1.ss2k.txCheck = 2 := by
      rw [hlast]; simpa using g1
    have he : (txSerialRun c avail (m + 1) s).2 = [] := by
      rw [hlast]; simp only; rw [p2, g2]; rfl
    obtain ⟨r1, r2⟩ := txSerialRun_round c (fun k => avail (k + (m + 1)))
      (txSerialRun c avail (m + 1) s).1 htx halt2 (by omega)
    rw [hm, txSerialRun_add, r1, he]
    refine ⟨?_, ?_⟩
    · simp only; omega
    · intro ha
      simpa using r2 (fun k => ha (k + (m + 1)))

/-- C16, witness: with `TX_CHECK_INTERVAL = 2`, from counter 0 the first call
leaves -1 and the second call leaves 2. -/
theorem txSerialRun_leaves_holdoff_witness :
    (txSerialRun sampleConsts (fun _ => 4) 1 zeroCounterState).1.ss2k.txCheck
      = -sampleConsts.TX_CHECK_INTERVAL + 1 ∧
    (txSerialRun sampleConsts (fun _ => 4) sampleConsts.TX_CHECK_INTERVAL.toNat
        zeroCounterState).1.ss2k.txCheck = 2 :=
  ⟨(txSerialRun_leaves_holdoff sampleConsts (fun _ => 4) zeroCounterState rfl (by decide) rfl).1,
   (txSerialRun_leaves_holdoff sampleConsts (fun _ => 4) zeroCounterState rfl (by decide)
      rfl).2.2.1⟩

/-- C16, counterexample: with `TX_CHECK_INTERVAL = 2`, from counter 0 the
counter is -1 after the first call and 2 after the second call: the second call
adds three, not one, and polling resumes from 2 without the counter having been
at 1. -/
theorem txSerialRun_holdoff_jumps_to_two :
    sampleConsts.TX_CHECK_INTERVAL = 2 ∧
    zeroCounterState.ss2k.txCheck = 0 ∧
    (txSerialRun sampleConsts (fun _ => 4) 1 zeroCounterState).1.ss2k.txCheck = -1 ∧
    (txSerialRun sampleConsts (fun _ => 4) 2 zeroCounterState).1.ss2k.txCheck = 2 ∧
    (txSerialRun sampleConsts (fun _ => 4) 3 zeroCounterState).2
      = [Event.auxSerialWrite [0xF5, 0x44, 0x39, 0xF6]] := by
  decide


/-- With `TX_CHECK_INTERVAL = 1` the hold-off does not end without a reception:
from counter 0 every call flips the counter to -1 and adds one, leaving 0. -/
theorem txSerialRun_holdoff_interval_one (c : Consts) (htx : c.PELOTON_TX = true)
    (hN : c.TX_CHECK_INTERVAL = 1) (k : Nat) :
    ∀ (avail : Nat → Nat) (s : State), s.ss2k.txCheck = 0 →
      (txSerialRun c avail k s).1.ss2k.txCheck = 0 ∧ (txSerialRun c avail k s).2 = [] := by
  induction k with
  | zero => intro avail s h; exact ⟨h, rfl⟩
  | succ k ih =>
    intro avail s h
    obtain ⟨c1, c2, _, _⟩ := txSerial_holdoff_call c (avail 0) s htx (by omega)
    rw [if_pos h, hN] at c1
    obtain ⟨i1, i2⟩ := ih (fun j => avail (j + 1)) (txSerial c (avail 0) s).1 (by rw [c1]; rfl)
    simp only [txSerialRun]
    exact ⟨i1, by rw [c2, i2]; rfl⟩

/-! ## Aux link: frames forwarded by the receive path -/

/-- The header scan is one `collectAndSet` call per header byte, in order, each on
the bytes from that header byte to the end of the run. -/
theorem rxScan_eq_forwards (c : Consts) (env : Env) (data : List Nat) :
    ∀ s : State, rxScan c env data s
      = (headerSuffixes c data).foldl (fun st frame =>
          collectAndSet c env c.PELOTON_DATA_UUID c.PELOTON_DATA_UUID c.PELOTON_ADDRESS frame
            { st with ss2k := { st.ss2k with pelotonIsConnected := true } }) s := by
  induction data with
  | nil => intro s; rfl
  | cons b rest ih =>
    intro s
    by_cases hb : b = c.PELOTON_HEADER
    · simp only [rxScan, headerSuffixes, hb, if_true, List.foldl_cons]
      exact ih _
    · simp only [rxScan, headerSuffixes, hb, if_false]
      exact ih _

/-- C17, the code at the failing input: the run `F1 44 F1` holds two header
bytes.  `rxScan` forwards two frames, first `F1 44 F1` and then `F1`; with a
decoder that reports the frame length as heart rate, the heart rate ends at 1,
the length of the second frame, where a single forward of the suffix at the first
header byte would leave 3. -/
theorem rxScan_forwards_every_header :
    headerSuffixes sampleConsts [0xF1, 0x44, 0xF1] = [[0xF1, 0x44, 0xF1], [0xF1]] ∧
    rxSerial sampleConsts lengthEnv [[0xF1, 0x44, 0xF1]] sampleState
      = collectAndSet sampleConsts lengthEnv 1 1 0 [0xF1]
          (collectAndSet sampleConsts lengthEnv 1 1 0 [0xF1, 0x44, 0xF1]
            (pelotonConnected sampleConsts
              { sampleState with ss2k := { sampleState.ss2k with pelotonIsConnected := true } })) ∧
    (rxSerial sampleConsts lengthEnv [[0xF1, 0x44, 0xF1]] sampleState).rtConfig.hr.value = 1 ∧
    (collectAndSet sampleConsts lengthEnv 1 1 0 [0xF1, 0x44, 0xF1]
      (pelotonConnected sampleConsts sampleState)).rtConfig.hr.value = 3 :=
  ⟨by decide, rfl, by decide, by decide⟩

/-! ## Control tick: a pending shift in simulation mode -/

/-- The state a tick of `moveStepper` leaves, with a stepper present. -/
theorem moveStepper_state (c : Consts) (r : StepperReads) (s : State) (hst : s.stepper = true) :
    (moveStepper c r s).1
      = { s with
          ss2k := { s.ss2k with
            stepperIsRunning := r.isRunning, currentPosition := r.posAtEntry,
            targetPosition := computeTargetPosition s },
          rtConfig := { s.rtConfig with currentIncline := (r.posIncline : ℚ) } } := by
  simp only [moveStepper, hst, if_true]
  rfl

/-- In a control tick in simulation mode with the resistance value strictly
between its bounds, the stepper limit test of `FTMSModeShiftModifier` is made on
the target that `moveStepper` has just computed from the shifted position, plus
one more shift: the pending shift is kept exactly when that sum lies in
`[minStep, maxStep]`. -/
theorem controlTick_sim_shift (c : Consts) (r : StepperReads) (s : State)
    (hst : s.stepper = true)
    (herg : s.rtConfig.FTMSMode ≠ .SetTargetPower)
    (hres : s.rtConfig.FTMSMode ≠ .SetTargetResistanceLevel)
    (hd : s.rtConfig.shifterPosition - s.ss2k.lastShifterPosition ≠ 0)
    (hlo : s.rtConfig.minResistance < s.rtConfig.resistance.value)
    (hhi : s.rtConfig.resistance.value < s.rtConfig.maxResistance) :
    (controlTick c r s).1.rtConfig.shifterPosition
      = (if computeTargetPosition s
              + (s.rtConfig.shifterPosition - s.ss2k.lastShifterPosition) * s.userConfig.shiftStep
              < s.rtConfig.minStep ∨
            computeTargetPosition s
              + (s.rtConfig.shifterPosition - s.ss2k.lastShifterPosition) * s.userConfig.shiftStep
              > s.rtConfig.maxStep
          then s.ss2k.lastShifterPosition else s.rtConfig.shifterPosition) := by
  have key := FTMSModeShiftModifier_sim_state c
    { s with
      ss2k := { s.ss2k with
        stepperIsRunning := r.isRunning, currentPosition := r.posAtEntry,
        targetPosition := computeTargetPosition s },
      rtConfig := { s.rtConfig with currentIncline := (r.posIncline : ℚ) } }
    herg hres hd
  simp only [controlTick]
  rw [moveStepper_state c r s hst, key]
  simp only [simShift, setShifterPosition]
  split_ifs <;> first | rfl | omega

/-- The target the sample pending-shift state produces: `10 * 10 + 0 * 0 = 100`. -/
theorem pendingShiftState_target : computeTargetPosition pendingShiftState = 100 := by
  simp [computeTargetPosition, pendingShiftState, sampleState, truncToInt]

/-- C18, the code at the failing input: simulation mode, `externalControl` off,
`shiftStep = 10`, stepper limits `[-100, 100]`, resistance value 0 strictly inside
`[-50, 50]`, incline 0; the shifter has moved from 9 to 10.  The target that shift
produces is `10 * 10 = 100`, inside the limits, yet the control tick reverts the
shifter to 9: `FTMSModeShiftModifier` tests `100 + 1 * 10 = 110` against the
limits. -/
theorem controlTick_rejects_inside_target :
    pendingShiftState.ss2k.externalControl = false ∧
    pendingShiftState.rtConfig.shifterPosition = 10 ∧
    pendingShiftState.ss2k.lastShifterPosition = 9 ∧
    computeTargetPosition pendingShiftState = 100 ∧
    pendingShiftState.rtConfig.minStep ≤ 100 ∧ 100 ≤ pendingShiftState.rtConfig.maxStep ∧
    (controlTick sampleConsts (restingReads 90) pendingShiftState).1.rtConfig.shifterPosition
      = 9 := by
  refine ⟨rfl, rfl, rfl, pendingShiftState_target, by decide, by decide, ?_⟩
  rw [controlTick_sim_shift sampleConsts (restingReads 90) pendingShiftState rfl
    (by decide) (by decide) (by decide) (by decide) (by decide), pendingShiftState_target]
  decide

/-! ## Motion control: at or beyond a resistance bound -/

/-- C19.  With a stepper present, the aux link connected,
`minResistance < maxResistance` and the actuator position reading `p` throughout
the tick: at `resistance.value <= minResistance` every `moveTo` of the tick goes to
a position at or above `p`, namely `p + 20` or a target above `p`; at
`resistance.value >= maxResistance` every `moveTo` goes to a position at or below
`p`, namely `p - 20` or a target below `p`. -/
theorem moveStepper_never_into_bound (c : Consts) (r : StepperReads) (s : State) (p : Int)
    (hst : s.stepper = true) (hconn : s.ss2k.pelotonIsConnected = true)
    (hbounds : s.rtConfig.minResistance < s.rtConfig.maxResistance)
    (hnudge : r.posNudge = p) (hout : r.posShiftOut = p) :
    (s.rtConfig.resistance.value ≤ s.rtConfig.minResistance →
      ∀ x ∈ moveTargets (moveStepper c r s).2,
        p ≤ x ∧ (x = p + 20 ∨
          (x = (moveStepper c r s).1.ss2k.targetPosition ∧
            p < (moveStepper c r s).1.ss2k.targetPosition))) ∧
    (s.rtConfig.resistance.value ≥ s.rtConfig.maxResistance →
      ∀ x ∈ moveTargets (moveStepper c r s).2,
        x ≤ p ∧ (x = p - 20 ∨
          (x = (moveStepper c r s).1.ss2k.targetPosition ∧
            (moveStepper c r s).1.ss2k.targetPosition < p))) := by
  obtain ⟨hm, ht⟩ := moveStepper_moves c r s hst
  rw [hm, ht]
  simp only [boundedMove, hconn, if_true, hnudge, hout]
  constructor
  · intro hv x hx
    split_ifs at hx <;> simp [moveTargets] at hx <;> omega
  · intro hv x hx
    split_ifs at hx <;> simp [moveTargets] at hx <;> omega

/-- C19, witness: resistance value -60 below the lower bound -50, actuator at 10,
target 0: the tick issues `moveTo 30`, and 30 is not below 10. -/
theorem moveStepper_never_into_bound_witness :
    (30 : Int) ∈ moveTargets (moveStepper sampleConsts (restingReads 10)
        (boundsState 0 (-60) true)).2 ∧
    ((10 : Int) ≤ 30 ∧ ((30 : Int) = 10 + 20 ∨
      ((30 : Int) = (moveStepper sampleConsts (restingReads 10)
            (boundsState 0 (-60) true)).1.ss2k.targetPosition ∧
        10 < (moveStepper sampleConsts (restingReads 10)
            (boundsState 0 (-60) true)).1.ss2k.targetPosition))) :=
  ⟨by decide,
   (moveStepper_never_into_bound sampleConsts (restingReads 10) (boundsState 0 (-60) true) 10
    rfl rfl (by decide) rfl rfl).1 (by decide) 30 (by decide)⟩

/-! ## Thermal guard: leaving the throttle -/

/-- A sample above the threshold sets the over-temperature flag. -/
theorem checkDriverTemperature_sets_overTemp (c : Consts) (t : Int) (s : State)
    (ht : c.THROTTLE_TEMP < t) : (checkDriverTemperature c t t t s).1.ss2k.overTemp = true := by
  simp [checkDriverTemperature, ht]

/-- A sample at or above the threshold keeps a set over-temperature flag set. -/
theorem checkDriverTemperature_keeps_overTemp (c : Consts) (t : Int) (s : State)
    (ht : c.THROTTLE_TEMP ≤ t) (hov : s.ss2k.overTemp = true) :
    (checkDriverTemperature c t t t s).1.ss2k.overTemp = true := by
  by_cases h : c.THROTTLE_TEMP < t
  · exact checkDriverTemperature_sets_overTemp c t s h
  · have h1 : ¬ (t > c.THROTTLE_TEMP) := by omega
    have h2 : ¬ (t < c.THROTTLE_TEMP) := by omega
    simp [checkDriverTemperature, h1, h2, hov]

/-- Samples at or above the threshold keep a set over-temperature flag set. -/
theorem checkDriverTemperatureRun_keeps_overTemp (c : Consts) (ts : List Int) :
    ∀ s : State, s.ss2k.overTemp = true → (∀ x ∈ ts, c.THROTTLE_TEMP ≤ x) →
      (checkDriverTemperatureRun c ts s).1.ss2k.overTemp = true := by
  induction ts with
  | nil => intro s hov _; exact hov
  | cons u us ih =>
    intro s hov hall
    have h := ih (checkDriverTemperature c u u u s).1
      (checkDriverTemperature_keeps_overTemp c u s (hall u (List.mem_cons_self _ _)) hov)
      (fun x hx => hall x (List.mem_cons_of_mem _ hx))
    simpa [checkDriverTemperatureRun] using h

/-- C20, as amended.  After a sample above `THROTTLE_TEMP` has throttled the
driver, and after any number of further samples none of which is strictly below
`THROTTLE_TEMP` (above it or equal to it), the over-temperature flag is set; the
next sample, if strictly below `THROTTLE_TEMP`, calls `driver.irun` with the
nominal `pwrScaler` (as a `uint8_t`) and clears the flag; if exactly equal to
`THROTTLE_TEMP`, it makes no driver call and leaves the flag set. -/
theorem checkDriverTemperature_restore (c : Consts) (s : State) (t0 : Int) (mid : List Int)
    (t : Int) (h0 : c.THROTTLE_TEMP < t0) (hmid : ∀ x ∈ mid, c.THROTTLE_TEMP ≤ x) :
    (checkDriverTemperatureRun c (t0 :: mid) s).1.ss2k.overTemp = true ∧
    (t < c.THROTTLE_TEMP →
      (checkDriverTemperature c t t t (checkDriverTemperatureRun c (t0 :: mid) s).1).2
        = [Event.irun (c.pwrScaler % 256)] ∧
      (checkDriverTemperature c t t t
        (checkDriverTemperatureRun c (t0 :: mid) s).1).1.ss2k.overTemp = false) ∧
    (t = c.THROTTLE_TEMP →
      (checkDriverTemperature c t t t (checkDriverTemperatureRun c (t0 :: mid) s).1).2 = [] ∧
      (checkDriverTemperature c t t t
        (checkDriverTemperatureRun c (t0 :: mid) s).1).1.ss2k.overTemp = true) ∧
    (0 ≤ c.pwrScaler → c.pwrScaler < 256 → c.pwrScaler % 256 = c.pwrScaler) := by
  have hov : (checkDriverTemperatureRun c (t0 :: mid) s).1.ss2k.overTemp = true := by
    have h := checkDriverTemperatureRun_keeps_overTemp c mid (checkDriverTemperature c t0 t0 t0 s).1
      (checkDriverTemperature_sets_overTemp c t0 s h0) hmid
    simpa [checkDriverTemperatureRun] using h
  refine ⟨hov, ?_, ?_, ?_⟩
  · intro ht
    have h1 : ¬ (t > c.THROTTLE_TEMP) := by omega
    simp [checkDriverTemperature, h1, ht, hov]
  · intro ht
    have h1 : ¬ (t > c.THROTTLE_TEMP) := by omega
    have h2 : ¬ (t < c.THROTTLE_TEMP) := by omega
    simp [checkDriverTemperature, h1, h2, hov]
  · intro ha hb
    exact Int.emod_eq_of_lt ha hb

/-- C20, witness: `THROTTLE_TEMP = 72`, `pwrScaler = 31`; after the samples 80, 72
and 75, a sample of 71 restores `irun 31`. -/
theorem checkDriverTemperature_restore_witness :
    (checkDriverTemperature sampleConsts 71 71 71
        (checkDriverTemperatureRun sampleConsts (80 :: [72, 75]) sampleState).1).2
      = [Event.irun (sampleConsts.pwrScaler % 256)] :=
  ((checkDriverTemperature_restore sampleConsts sampleState 80 [72, 75] 71 (by decide)
    (by decide)).2.1 (by decide)).1

/-- C20, counterexample: `THROTTLE_TEMP = 72`, `pwrScaler = 31`.  A sample of 80
throttles the driver (`irun 23`); the next sample, exactly 72, makes no driver
call and leaves the over-temperature flag set: the current is not restored. -/
theorem checkDriverTemperature_equal_not_restored :
    sampleConsts.THROTTLE_TEMP = 72 ∧
    (checkDriverTemperatureRun sampleConsts [80] sampleState).2 = [Event.irun 23] ∧
    (checkDriverTemperatureRun sampleConsts [80, 72] sampleState).2 = [Event.irun 23] ∧
    (checkDriverTemperatureRun sampleConsts [80, 72] sampleState).1.ss2k.overTemp = true := by
  decide

/-! ## Motion control: wiring direction -/

theorem directionCalls_append (xs ys : List Event) :
    directionCalls (xs ++ ys) = directionCalls xs ++ directionCalls ys := by
  induction xs with
  | nil => rfl
  | cons x xs ih => cases x <;> simp [directionCalls, ih]

theorem directionCalls_replicate_delay (n ms : Nat) :
    directionCalls (List.replicate n (Event.vTaskDelay ms)) = [] := by
  induction n with
  | zero => rfl
  | succ n ih => simp [List.replicate_succ, directionCalls, ih]

theorem directionCalls_boundedMove (r : StepperReads) (s : State) :
    directionCalls (boundedMove r s) = [] := by
  unfold boundedMove
  split_ifs <;> rfl

/-- The part of a tick before the direction check issues no `setDirectionPin`. -/
theorem directionCalls_before_check (r : StepperReads) (s : State) (tp : Int) :
    directionCalls
      ((if s.ss2k.syncMode = true then
          [Event.stopMove, Event.vTaskDelay 100, Event.setCurrentPosition tp, Event.vTaskDelay 100]
        else []) ++ boundedMove r s ++
        (if r.clientCount > 0 then [Event.setAutoEnable false, Event.enableOutputs]
          else [Event.setAutoEnable true])) = [] := by
  rw [directionCalls_append, directionCalls_append, directionCalls_boundedMove]
  have h1 : directionCalls (if s.ss2k.syncMode = true then
      [Event.stopMove, Event.vTaskDelay 100, Event.setCurrentPosition tp, Event.vTaskDelay 100]
      else []) = [] := by
    split_ifs <;> rfl
  have h2 : directionCalls (if r.clientCount > 0 then
      [Event.setAutoEnable false, Event.enableOutputs] else [Event.setAutoEnable true]) = [] := by
    split_ifs <;> rfl
  rw [h1, h2]
  rfl

/-- The calls of a tick with a stepper present: the part before the direction
check, then the calls of the direction check. -/
theorem moveStepper_events (c : Consts) (r : StepperReads) (s : State) (hst : s.stepper = true) :
    (moveStepper c r s).2
      = ((if s.ss2k.syncMode = true then
            [Event.stopMove, Event.vTaskDelay 100,
              Event.setCurrentPosition (computeTargetPosition s), Event.vTaskDelay 100]
          else []) ++
          boundedMove r
            { s with ss2k := { s.ss2k with
                stepperIsRunning := r.isRunning, currentPosition := r.posAtEntry,
                targetPosition := computeTargetPosition s } } ++
          (if r.clientCount > 0 then [Event.setAutoEnable false, Event.enableOutputs]
            else [Event.setAutoEnable true])) ++
        (if r.dirAtEntry ≠ r.dirAtExit then
          List.replicate r.runningPolls (Event.vTaskDelay 100)
            ++ [Event.setDirectionPin c.dirPin r.dirApplied]
        else []) := by
  simp only [moveStepper, hst, if_true]
  rfl

/-- A tick during which the configured direction does not change (the read on
entry and the read of the comparison agree) never calls `setDirectionPin`,
whatever the direction was during earlier ticks: `_stepperDir` is a local
variable, set from the configuration on entry. -/
theorem moveStepper_direction_same_reads (c : Consts) (r : StepperReads) (s : State)
    (hsame : r.dirAtEntry = r.dirAtExit) :
    directionCalls (moveStepper c r s).2 = [] := by
  by_cases hst : s.stepper = true
  · have hbefore := directionCalls_before_check r
      { s with ss2k := { s.ss2k with
          stepperIsRunning := r.isRunning, currentPosition := r.posAtEntry,
          targetPosition := computeTargetPosition s } } (computeTargetPosition s)
    rw [moveStepper_events c r s hst, directionCalls_append, hbefore,
      if_neg (by simpa using hsame)]
    rfl
  · simp only [moveStepper, hst]
    rfl

/-- A tick during which the configured direction changes waits, in steps of
100 ms, while the stepper reports running, and then calls `setDirectionPin` once,
with the direction read last; these are the last calls of the tick. -/
theorem moveStepper_direction_changed_reads (c : Consts) (r : StepperReads) (s : State)
    (hst : s.stepper = true) (hchg : r.dirAtEntry ≠ r.dirAtExit) :
    (∃ before : List Event, directionCalls before = [] ∧
      (moveStepper c r s).2
        = before ++ (List.replicate r.runningPolls (Event.vTaskDelay 100)
            ++ [Event.setDirectionPin c.dirPin r.dirApplied])) ∧
    directionCalls (moveStepper c r s).2 = [(c.dirPin, r.dirApplied)] := by
  have hbefore := directionCalls_before_check r
    { s with ss2k := { s.ss2k with
        stepperIsRunning := r.isRunning, currentPosition := r.posAtEntry,
        targetPosition := computeTargetPosition s } } (computeTargetPosition s)
  have hev := moveStepper_events c r s hst
  rw [if_pos hchg] at hev
  refine ⟨⟨_, hbefore, hev⟩, ?_⟩
  rw [hev, directionCalls_append, hbefore, directionCalls_append,
    directionCalls_replicate_delay]
  rfl

/-- C21, the code at the failing input: during one tick the configured direction
reads false; it is then changed to true, and during the following tick it reads
true (on entry and at the comparison).  Neither tick calls `setDirectionPin`: the
new direction is not applied. -/
theorem moveStepper_direction_change_missed :
    (readsWithDir 0 false).dirAtExit ≠ (readsWithDir 0 true).dirAtEntry ∧
    directionCalls (moveStepper sampleConsts (readsWithDir 0 false) (boundsState 0 0 false)).2
      = [] ∧
    directionCalls
      (moveStepper sampleConsts (readsWithDir 0 true)
        (moveStepper sampleConsts (readsWithDir 0 false) (boundsState 0 0 false)).1).2 = [] ∧
    (moveStepper sampleConsts (readsWithDir 0 true)
        (moveStepper sampleConsts (readsWithDir 0 false) (boundsState 0 0 false)).1).2
      = [Event.moveTo 0, Event.setAutoEnable true] := by
  decide

end SS2K
